import Mathlib

/-!
# Brand Visibility Tracker — AI scoring/aggregation pipeline, verified model

A shallow embedding of the AI response scoring and aggregation pipeline of the
brand-visibility-tracker repository, together with theorems settling the frozen
claims about it.

The embedding follows the sources:
* `AIService` version 2 (the file holding `extractAndParseJSON`,
  `validateParsedResponse`, `getScoringSystemMessage`, `analyzeBrand`,
  `analyzeWithMultiplePrompts`) — the canonical pipeline per the spec;
* `src/lib/services/aiService.ts` (the older variant) for
  `computeStageSpecificScore`;
* `PromptService.replacePromptPlaceholders`.

JavaScript-level behaviour that the code relies on is modelled explicitly:
`JSON.parse` as a recursive-descent parser over characters, the regex repairs of
`extractAndParseJSON` as character scanners mirroring the exact regexes,
`Math.round` as floor of x + 1/2 (half toward positive infinity), truthiness of
JS values where the code branches on it, number-or-`NaN` arithmetic (`JsNum`)
for the sentiment accumulators — `undefined` entering `+=` yields `NaN`, and
comparisons on `NaN` are false — and the `TypeError` thrown by indexing an
`undefined` or `null` `distribution`, which aborts the aggregation loop
(modelled as an `Except`-valued fold).  Scanners take explicit fuel (always
instantiated generously from the input length) so that every definition is
executable and kernel-reducible on concrete inputs.
-/

set_option maxRecDepth 400000

namespace BVT

/-! ## Characters and JS-flavoured string primitives

Literal braces, apostrophes and quotes are produced via `Char.ofNat` so that the
embedding can talk about JSON text directly. -/

/-- The character `{` (code 123). -/
def lbrace : Char := Char.ofNat 123

/-- The character `}` (code 125). -/
def rbrace : Char := Char.ofNat 125

/-- The character `[`. -/
def lbrack : Char := Char.ofNat 91

/-- The character `]`. -/
def rbrack : Char := Char.ofNat 93

/-- The double-quote character. -/
def dquote : Char := Char.ofNat 34

/-- The single-quote (apostrophe) character. -/
def squote : Char := Char.ofNat 39

/-- The backslash character. -/
def bslash : Char := Char.ofNat 92

/-- Whitespace recognised by the JSON grammar (space, tab, line feed, carriage
return). -/
def isJsonWs (c : Char) : Bool :=
  c = ' ' || c = '\t' || c = '\n' || c = '\r'

/-- Whitespace matched by the JavaScript regex class `\s` and trimmed by
`String.prototype.trim`.  We model the ASCII members (space, tab, line feed,
carriage return, vertical tab, form feed); the exotic Unicode members never
occur in the texts this pipeline manipulates. -/
def isJsWs (c : Char) : Bool :=
  c = ' ' || c = '\t' || c = '\n' || c = '\r' ||
  c = Char.ofNat 11 || c = Char.ofNat 12

/-- `String.prototype.trim`, on the character list. -/
def jsTrimList (l : List Char) : List Char :=
  ((l.dropWhile isJsWs).reverse.dropWhile isJsWs).reverse

/-- `String.prototype.trim`. -/
def jsTrim (s : String) : String := ⟨jsTrimList s.data⟩

/-- `s.substring(0, n)` / the first `n` characters of `s`. -/
def jsTake (s : String) (n : Nat) : String := ⟨s.data.take n⟩

/-- Decimal digit test. -/
def isDigit (c : Char) : Bool := '0' ≤ c && c ≤ '9'

/-- Value of a decimal digit. -/
def digitVal (c : Char) : Nat := c.toNat - 48

/-! ## JSON values

The result type of the modelled `JSON.parse`.  As in JavaScript, an object
keeps its fields in insertion order; a repeated name overwrites the value in
place (ECMA-262 `JSON.parse` behaviour).  A number keeps its spelling
(mantissa, number of fraction digits, exponent): every comparison made by the
claims is between values produced by this same parser, for which spelling
equality and value equality agree. -/

/-- A JSON number as parsed: `mantissa / 10^fracLen * 10^exp10`. -/
structure JsonNum where
  mantissa : Int
  fracLen : Nat
  exp10 : Int
deriving DecidableEq, Repr

/-- The rational value denoted by a parsed JSON number. -/
def JsonNum.toRat (n : JsonNum) : ℚ :=
  (n.mantissa : ℚ) / ((10 : ℚ) ^ n.fracLen) * (10 : ℚ) ^ n.exp10

/-- JSON values (the image of the modelled `JSON.parse`). -/
inductive Json where
  | null : Json
  | bool (b : Bool) : Json
  | num (n : JsonNum) : Json
  | str (s : String) : Json
  | arr (elems : List Json) : Json
  | obj (fields : List (String × Json)) : Json
deriving Repr

/-- Insert a field as ECMA-262 `JSON.parse` does: a repeated name overwrites
the value at the position of the first occurrence, otherwise the field is
appended. -/
def insertField (fields : List (String × Json)) (k : String) (v : Json) :
    List (String × Json) :=
  match fields with
  | [] => [(k, v)]
  | (k', v') :: rest =>
    if k' = k then (k', v) :: rest else (k', v') :: insertField rest k v

/-- Look a field up in an object's field list (first occurrence; names are
unique by construction of `insertField`). -/
def lookupField (fields : List (String × Json)) (k : String) : Option Json :=
  match fields with
  | [] => none
  | (k', v) :: rest => if k' = k then some v else lookupField rest k

/-- `field in parsed` for an object. -/
def Json.hasField (j : Json) (k : String) : Bool :=
  match j with
  | .obj fields => (lookupField fields k).isSome
  | _ => false

/-- JavaScript truthiness of a JSON value (`!parsed` branches in the source):
`null`, `false`, `0` and the empty string are falsy, every array and object is
truthy. -/
def Json.truthy (j : Json) : Bool :=
  match j with
  | .null => false
  | .bool b => b
  | .num n => !(n.mantissa = 0)
  | .str s => !(s = "")
  | .arr _ => true
  | .obj _ => true

/-- `typeof parsed === "object"` for a JSON value: true for `null`, arrays and
objects (JavaScript's notorious `typeof null`). -/
def Json.typeofObject (j : Json) : Bool :=
  match j with
  | .null => true
  | .arr _ => true
  | .obj _ => true
  | _ => false

/-- A value on which the `in` operator is legal: an object or an array. -/
def Json.isObjLike (j : Json) : Bool :=
  match j with
  | .obj _ => true
  | .arr _ => true
  | _ => false

/-! ## The modelled `JSON.parse`

A recursive-descent parser over `List Char`, faithful to the JSON grammar that
`JSON.parse` accepts: the four whitespace characters, strings with the nine
escapes, numbers without leading zeros, `true`/`false`/`null`, arrays and
objects, and full consumption of the input.  All functions take fuel, a bound
on the number of recursive calls, which the top entry point instantiates with
more than the input length can ever need. -/

/-- Parse four hexadecimal digits (the `\uXXXX` escape). -/
def parseHex4 (l : List Char) : Option (Nat × List Char) :=
  match l with
  | a :: b :: c :: d :: rest =>
    let hv := fun (c : Char) =>
      if isDigit c then some (digitVal c)
      else if 'a' ≤ c && c ≤ 'f' then some (c.toNat - 87)
      else if 'A' ≤ c && c ≤ 'F' then some (c.toNat - 55)
      else none
    match hv a, hv b, hv c, hv d with
    | some x, some y, some z, some w => some (((x * 16 + y) * 16 + z) * 16 + w, rest)
    | _, _, _, _ => none
  | _ => none

/-- Parse the body of a JSON string literal (after the opening quote), handling
the escape sequences `JSON.parse` accepts and rejecting raw control
characters. -/
def parseStringBody : Nat → List Char → Except String (List Char × List Char)
  | 0, _ => .error "fuel exhausted"
  | _, [] => .error "Unterminated string in JSON"
  | fuel + 1, c :: rest =>
    if c = dquote then .ok ([], rest)
    else if c = bslash then
      match rest with
      | [] => .error "Unterminated string in JSON"
      | e :: rest' =>
        let cont := fun (ch : Char) (after : List Char) =>
          match parseStringBody fuel after with
          | .ok (body, rem) => .ok (ch :: body, rem)
          | .error msg => .error msg
        if e = dquote then cont dquote rest'
        else if e = bslash then cont bslash rest'
        else if e = '/' then cont '/' rest'
        else if e = 'b' then cont (Char.ofNat 8) rest'
        else if e = 'f' then cont (Char.ofNat 12) rest'
        else if e = 'n' then cont '\n' rest'
        else if e = 'r' then cont '\r' rest'
        else if e = 't' then cont '\t' rest'
        else if e = 'u' then
          match parseHex4 rest' with
          | some (n, after) => cont (Char.ofNat n) after
          | none => .error "Bad Unicode escape in JSON"
        else .error "Bad escaped character in JSON"
    else if c.toNat < 32 then .error "Bad control character in JSON string"
    else
      match parseStringBody fuel rest with
      | .ok (body, rem) => .ok (c :: body, rem)
      | .error msg => .error msg

/-- Accumulate a run of decimal digits into a natural number. -/
def digitsVal (acc : Nat) : List Char → Nat × Nat × List Char
  | [] => (acc, 0, [])
  | c :: rest =>
    if isDigit c then
      let (v, n, rem) := digitsVal (acc * 10 + digitVal c) rest
      (v, n + 1, rem)
    else (acc, 0, c :: rest)

/-- Parse a JSON number (after an optional leading minus sign has been noted):
integer part without leading zeros, optional fraction, optional exponent. -/
def parseNumberTail (neg : Bool) (l : List Char) :
    Except String (JsonNum × List Char) :=
  match l with
  | [] => .error "Unexpected end of JSON input"
  | c :: rest =>
    if !(isDigit c) then .error "Unexpected token in JSON" else
    -- integer part: "0" alone, or a nonzero digit followed by digits
    let intStep : Except String (Nat × List Char) :=
      if c = '0' then
        match rest with
        | d :: _ => if isDigit d then .error "Unexpected number in JSON" else .ok (0, rest)
        | [] => .ok (0, [])
      else
        let (v, _, rem) := digitsVal (digitVal c) rest
        .ok (v, rem)
    match intStep with
    | .error msg => .error msg
    | .ok (intVal, afterInt) =>
      -- fraction part
      let fracStep : Except String (Nat × Nat × List Char) :=
        match afterInt with
        | '.' :: d :: rest' =>
          if isDigit d then
            let (v, n, rem) := digitsVal (digitVal d) rest'
            .ok (v, n + 1, rem)
          else .error "Unexpected token in JSON"
        | '.' :: [] => .error "Unexpected end of JSON input"
        | other => .ok (0, 0, other)
      match fracStep with
      | .error msg => .error msg
      | .ok (fracVal, fracLen, afterFrac) =>
        -- exponent part
        let expStep : Except String (Int × List Char) :=
          match afterFrac with
          | e :: rest' =>
            if e = 'e' || e = 'E' then
              let (esign, erest) :=
                match rest' with
                | '-' :: r => (true, r)
                | '+' :: r => (false, r)
                | r => (false, r)
              match erest with
              | d :: rest'' =>
                if isDigit d then
                  let (v, _, rem) := digitsVal (digitVal d) rest''
                  .ok (if esign then -(v : Int) else (v : Int), rem)
                else .error "Unexpected token in JSON"
              | [] => .error "Unexpected end of JSON input"
            else .ok (0, e :: rest')
          | [] => .ok (0, [])
        match expStep with
        | .error msg => .error msg
        | .ok (expVal, afterExp) =>
          let mag : Nat := intVal * 10 ^ fracLen + fracVal
          let mant : Int := if neg then -(mag : Int) else (mag : Int)
          .ok (⟨mant, fracLen, expVal⟩, afterExp)

mutual

/-- Parse one JSON value from the front of the input. -/
def parseValue : Nat → List Char → Except String (Json × List Char)
  | 0, _ => .error "fuel exhausted"
  | _, [] => .error "Unexpected end of JSON input"
  | fuel + 1, c :: rest =>
    if c = lbrace then parseMembers fuel ((c :: rest).drop 1) [] true
    else if c = lbrack then parseElements fuel rest [] true
    else if c = dquote then
      match parseStringBody fuel rest with
      | .ok (body, rem) => .ok (.str ⟨body⟩, rem)
      | .error msg => .error msg
    else if c = '-' then
      match parseNumberTail true rest with
      | .ok (n, rem) => .ok (.num n, rem)
      | .error msg => .error msg
    else if isDigit c then
      match parseNumberTail false (c :: rest) with
      | .ok (n, rem) => .ok (.num n, rem)
      | .error msg => .error msg
    else if c = 't' then
      match rest with
      | 'r' :: 'u' :: 'e' :: rem => .ok (.bool true, rem)
      | _ => .error "Unexpected token in JSON"
    else if c = 'f' then
      match rest with
      | 'a' :: 'l' :: 's' :: 'e' :: rem => .ok (.bool false, rem)
      | _ => .error "Unexpected token in JSON"
    else if c = 'n' then
      match rest with
      | 'u' :: 'l' :: 'l' :: rem => .ok (.null, rem)
      | _ => .error "Unexpected token in JSON"
    else .error "Unexpected token in JSON"

/-- Parse the members of an object.  `first` is true right after the opening
brace, where a closing brace yields the empty object. -/
def parseMembers (fuel : Nat) (l : List Char) (acc : List (String × Json))
    (first : Bool) : Except String (Json × List Char) :=
  match fuel with
  | 0 => .error "fuel exhausted"
  | fuel + 1 =>
    let l := l.dropWhile isJsonWs
    match l with
    | [] => .error "Unexpected end of JSON input"
    | c :: rest =>
      if c = rbrace && first && acc.isEmpty then .ok (.obj [], rest)
      else if !(c = dquote) then .error "Unexpected token in JSON"
      else
        match parseStringBody fuel rest with
        | .error msg => .error msg
        | .ok (keyBody, afterKey) =>
          match (afterKey.dropWhile isJsonWs) with
          | ':' :: afterColon =>
            match parseValue fuel (afterColon.dropWhile isJsonWs) with
            | .error msg => .error msg
            | .ok (v, afterVal) =>
              let acc' := insertField acc ⟨keyBody⟩ v
              match (afterVal.dropWhile isJsonWs) with
              | ',' :: afterComma => parseMembers fuel afterComma acc' false
              | d :: afterClose =>
                if d = rbrace then .ok (.obj acc', afterClose)
                else .error "Unexpected token in JSON"
              | [] => .error "Unexpected end of JSON input"
          | _ => .error "Unexpected token in JSON"

/-- Parse the elements of an array.  `first` is true right after the opening
bracket, where a closing bracket yields the empty array. -/
def parseElements (fuel : Nat) (l : List Char) (acc : List Json)
    (first : Bool) : Except String (Json × List Char) :=
  match fuel with
  | 0 => .error "fuel exhausted"
  | fuel + 1 =>
    let l := l.dropWhile isJsonWs
    match l with
    | [] => .error "Unexpected end of JSON input"
    | c :: rest =>
      if c = rbrack && first && acc.isEmpty then .ok (.arr acc.reverse, rest)
      else
        match parseValue fuel (c :: rest) with
        | .error msg => .error msg
        | .ok (v, afterVal) =>
          match (afterVal.dropWhile isJsonWs) with
          | ',' :: afterComma => parseElements fuel afterComma (v :: acc) false
          | d :: afterClose =>
            if d = rbrack then .ok (.arr (v :: acc).reverse, afterClose)
            else .error "Unexpected token in JSON"
          | [] => .error "Unexpected end of JSON input"

end

/-- The modelled `JSON.parse`: parse one value and require that nothing but
whitespace follows.  The fuel bound exceeds anything the input can consume. -/
def jsonParse (l : List Char) : Except String Json :=
  match parseValue (4 * l.length + 16) (l.dropWhile isJsonWs) with
  | .error msg => .error msg
  | .ok (v, rem) =>
    match rem.dropWhile isJsonWs with
    | [] => .ok v
    | _ => .error "Unexpected non-whitespace character after JSON"

/-- `JSON.parse` on a string. -/
def jsonParseStr (s : String) : Except String Json := jsonParse s.data

/-! ## `extractAndParseJSON` (AIService)

The six-strategy JSON extraction of the source, strategy by strategy.  Each
regex of the source is modelled as a character scanner with the exact same
match/replace semantics (leftmost match, greediness, global flag, resumption
after the replaced text). -/

/-- The backtick character. -/
def btick : Char := Char.ofNat 96

/-- Strategy 1a, `replace(/^(3 backticks)(?:json)?\s*/i, "")`: strip a leading
code fence, an optional case-insensitive `json` tag and following whitespace.
No match leaves the text unchanged. -/
def stripLeadingFence (l : List Char) : List Char :=
  match l with
  | c1 :: c2 :: c3 :: rest =>
    if c1 = btick && c2 = btick && c3 = btick then
      let afterTag :=
        match rest with
        | a :: b :: c :: d :: tail =>
          if (a = 'j' || a = 'J') && (b = 's' || b = 'S') &&
             (c = 'o' || c = 'O') && (d = 'n' || d = 'N')
          then tail else rest
        | _ => rest
      afterTag.dropWhile isJsWs
    else l
  | _ => l

/-- Strategy 1b, `replace(/(3 backticks)\s*$/, "")`: the first (and only
possible) match of three backticks followed by nothing but whitespace is
removed; if the text, after trailing whitespace, does not end in three
backticks there is no match and the text is unchanged. -/
def stripTrailingFence (l : List Char) : List Char :=
  match l.reverse.dropWhile isJsWs with
  | c1 :: c2 :: c3 :: rest =>
    if c1 = btick && c2 = btick && c3 = btick then rest.reverse else l
  | _ => l

/-- Search for the leftmost position at which the strategy-2 regex can match:
an opening brace with some closing brace after it, or an opening bracket with
some closing bracket after it.  Returns the suffix starting there and the
matching closer. -/
def spanSearch : List Char → Option (List Char × Char)
  | [] => none
  | c :: rest =>
    if c = lbrace && rest.contains rbrace then some (c :: rest, rbrace)
    else if c = lbrack && rest.contains rbrack then some (c :: rest, rbrack)
    else spanSearch rest

/-- Truncate after the last occurrence of `closer` (the greedy `[\s\S]*`
backtracks to the last closer in the subject). -/
def dropAfterLast (closer : Char) (l : List Char) : List Char :=
  (l.reverse.dropWhile (fun c => !(c = closer))).reverse

/-- Strategy 2, `match(/(\{[\s\S]*\}|\[[\s\S]*\])/)`: extract the span from
the leftmost viable opener to the last matching closer; when there is no
match the text is left as it is. -/
def extractSpan (l : List Char) : List Char :=
  match spanSearch l with
  | none => l
  | some (suffix, closer) => dropAfterLast closer suffix

/-- Strategy 3, `replace(/,(\s*[}\]])/g, "$1")`: every comma followed by
optional whitespace and a closing brace or bracket is deleted (the whitespace
and closer are kept); scanning resumes after the closer. -/
def removeTrailingCommasF : Nat → List Char → List Char
  | 0, l => l
  | _, [] => []
  | fuel + 1, c :: rest =>
    if c = ',' then
      let ws := rest.takeWhile isJsWs
      match rest.drop ws.length with
      | d :: rest2 =>
        if d = rbrace || d = rbrack then ws ++ d :: removeTrailingCommasF fuel rest2
        else c :: removeTrailingCommasF fuel rest
      | [] => c :: removeTrailingCommasF fuel rest
    else c :: removeTrailingCommasF fuel rest

/-- Strategy 3 with its fuel instantiated (one unit per character suffices,
as every step consumes at least one character). -/
def removeTrailingCommas (l : List Char) : List Char :=
  removeTrailingCommasF l.length l

/-- Nearest following `*/`, for the non-greedy block-comment regex. -/
def findBlockClose : List Char → Option (List Char)
  | '*' :: '/' :: rest => some rest
  | _ :: rest => findBlockClose rest
  | [] => none

/-- Strategy 4a, `replace(/\/\*[\s\S]*?\*\//g, "")`: each `/*` with a later
`*/` is removed up to the nearest `*/`; a `/*` with no close anywhere matches
nothing and stays. -/
def removeBlockCommentsF : Nat → List Char → List Char
  | 0, l => l
  | _, [] => []
  | fuel + 1, c :: rest =>
    if c = '/' then
      match rest with
      | c2 :: rest2 =>
        if c2 = '*' then
          match findBlockClose rest2 with
          | some after => removeBlockCommentsF fuel after
          | none => c :: removeBlockCommentsF fuel rest
        else c :: removeBlockCommentsF fuel rest
      | [] => [c]
    else c :: removeBlockCommentsF fuel rest

/-- Strategy 4a with its fuel instantiated. -/
def removeBlockComments (l : List Char) : List Char :=
  removeBlockCommentsF l.length l

/-- Strategy 4b, `replace(/\/\/.*/g, "")`: from each `//` on, characters are
removed up to (not including) the next line terminator, as `.` matches
neither `\n` nor `\r`. -/
def removeLineCommentsF : Nat → List Char → List Char
  | 0, l => l
  | _, [] => []
  | fuel + 1, c :: rest =>
    if c = '/' then
      match rest with
      | c2 :: rest2 =>
        if c2 = '/' then
          removeLineCommentsF fuel (rest2.dropWhile (fun d => !(d = '\n' || d = '\r')))
        else c :: removeLineCommentsF fuel rest
      | [] => [c]
    else c :: removeLineCommentsF fuel rest

/-- Strategy 4b with its fuel instantiated. -/
def removeLineComments (l : List Char) : List Char :=
  removeLineCommentsF l.length l

/-- Strategy 6's repair, `replace(/'/g, '"')`: every single quote becomes a
double quote. -/
def fixSingleQuotes (l : List Char) : List Char :=
  l.map (fun c => if c = squote then dquote else c)

/-- The text handed to `JSON.parse` by strategy 5: the input trimmed, fences
stripped, the JSON-like span extracted, trailing commas and comments
removed. -/
def extractCleaned (response : String) : List Char :=
  removeLineComments (removeBlockComments (removeTrailingCommas
    (extractSpan (stripTrailingFence (stripLeadingFence
      (jsTrimList response.data))))))

/-- How `extractAndParseJSON` fails: the guard on empty input, or the final
error carrying the strategy-5 parse error and a preview of the input. -/
inductive ExtractError where
  | emptyInput : ExtractError
  | malformed (parseErr : String) (preview : String) : ExtractError
deriving Repr

/-- The message text of an extraction failure, as the source formats it. -/
def extractErrorMessage : ExtractError → String
  | .emptyInput => "Invalid response: empty or non-string"
  | .malformed parseErr preview =>
    "JSON parsing failed after multiple strategies.\nError: " ++ parseErr ++
      "\nResponse preview (first 300 chars): " ++ preview ++ "..."

/-- Strategies 5 and 6 of `extractAndParseJSON`.  Strategy 5's `JSON.parse`
result is accepted only when truthy and `typeof "object"`; both a parse error
and the thrown "Parsed result is not an object" land in the same catch, which
tries `JSON.parse` once more on the single-quote-repaired text and returns
whatever it yields — with no object check on that path.  If that also fails,
the final error carries the strategy-5 error and the first 300 characters of
the original input. -/
def parseWithFallback (cleaned : List Char) (response : String) :
    Except ExtractError Json :=
  let finish := fun (parseErr : String) =>
    match jsonParse (fixSingleQuotes cleaned) with
    | .ok v => Except.ok v
    | .error _ => Except.error (.malformed parseErr (jsTake response 300))
  match jsonParse cleaned with
  | .ok parsed =>
    if parsed.truthy && parsed.typeofObject then .ok parsed
    else finish "Parsed result is not an object"
  | .error e => finish e

/-- `AIService.extractAndParseJSON` (the six-strategy robust extraction). -/
def extractAndParseJSON (response : String) : Except ExtractError Json :=
  if response = "" then .error .emptyInput
  else parseWithFallback (extractCleaned response) response

/-! ## `validateParsedResponse` (AIService) -/

/-- The fields `validateParsedResponse` requires. -/
def requiredFields : List String := ["score", "confidence", "rationale", "sentiment"]

/-- `Object.keys(parsed)` for the two shapes the `in` operator accepts. -/
def availableKeys : Json → List String
  | .obj fields => fields.map (fun f => f.1)
  | .arr elems => (List.range elems.length).map (fun n => toString n)
  | _ => []

/-- Field projection on an object. -/
def Json.field (j : Json) (k : String) : Option Json :=
  match j with
  | .obj fields => lookupField fields k
  | _ => none

/-- How `validateParsedResponse` fails.  `typeErrorIn` is the JavaScript
`TypeError` raised by `field in parsed` when `parsed` is not an object or an
array — it is raised while computing the missing-field list, before any of
the method's own errors can be built. -/
inductive ValidationError where
  | typeErrorIn (field : String) (target : Json) : ValidationError
  | missingFields (missing : List String) (available : List String) : ValidationError
  | invalidScore (value : Option Json) : ValidationError
  | invalidSentiment : ValidationError
deriving Repr

/-- The body of `validateParsedResponse` once the `in` operator is known to
be legal: collect the missing required fields, then check `score` is a
number (a parsed JSON number is never `NaN`) and `sentiment` is truthy and
`typeof "object"`. -/
def validateFields (parsed : Json) : Except ValidationError Unit :=
  if !(requiredFields.filter (fun f => !(parsed.hasField f))).isEmpty then
    .error (.missingFields
      (requiredFields.filter (fun f => !(parsed.hasField f)))
      (availableKeys parsed))
  else
    match parsed.field "score" with
    | some (.num _) =>
      match parsed.field "sentiment" with
      | some sj =>
        if sj.truthy && sj.typeofObject then .ok ()
        else .error .invalidSentiment
      | none => .error .invalidSentiment
    | v => .error (.invalidScore v)

/-- `AIService.validateParsedResponse`: requires all of
{score, confidence, rationale, sentiment} to be present, `score` to be a
number, and `sentiment` to be truthy and `typeof "object"`.  On a primitive
the very first `in` test raises a `TypeError`. -/
def validateParsedResponse (parsed : Json) : Except ValidationError Unit :=
  match parsed with
  | .obj _ => validateFields parsed
  | .arr _ => validateFields parsed
  | _ => .error (.typeErrorIn "score" parsed)

/-! ## Funnel stages, models and the stage scoring policy -/

/-- The four marketing funnel stages (`AnalysisStage` in `types/brand.ts`). -/
inductive AnalysisStage where
  | TOFU | MOFU | BOFU | EVFU
deriving DecidableEq, Repr

/-- The stage labels as strings. -/
def stageName : AnalysisStage → String
  | .TOFU => "TOFU"
  | .MOFU => "MOFU"
  | .BOFU => "BOFU"
  | .EVFU => "EVFU"

/-- The AI models `analyzeBrand` routes between.  `types/brand.ts` declares
ChatGPT, Claude and Gemini; the version-2 `analyzeBrand` additionally routes
Perplexity. -/
inductive AIModel where
  | ChatGPT | Claude | Gemini | Perplexity
deriving DecidableEq, Repr

/-- The model labels as strings. -/
def modelName : AIModel → String
  | .ChatGPT => "ChatGPT"
  | .Claude => "Claude"
  | .Gemini => "Gemini"
  | .Perplexity => "Perplexity"

/-- Stage-specific weight configuration.  The interface is declared in
`@/types/services`, which is not among the sources; its shape is read off the
uses in `computeStageSpecificScore` (`base_weight` plus one optional
outcome-to-score table per stage). -/
structure StageSpecificWeights where
  base_weight : ℚ
  position_weights : Option (List (String × ℚ))
  mofu_scale : Option (List (String × ℚ))
  bofu_scale : Option (List (String × ℚ))
  evfu_scale : Option (List (String × ℚ))

/-- The scores returned by `computeStageSpecificScore`. -/
structure ScorePair where
  rawScore : ℚ
  weightedScore : ℚ
deriving DecidableEq, Repr

/-- `AIService.computeStageSpecificScore` (`src/lib/services/aiService.ts`):
select the stage's outcome table (`|| {}` when absent), look the outcome value
up (`?? 0` when the value is not a key), and multiply by the base weight. -/
def computeStageSpecificScore (stage : AnalysisStage) (value : String)
    (weights : StageSpecificWeights) (baseWeight : ℚ) : ScorePair :=
  let stageMap : List (String × ℚ) :=
    match stage with
    | .TOFU => weights.position_weights.getD []
    | .MOFU => weights.mofu_scale.getD []
    | .BOFU => weights.bofu_scale.getD []
    | .EVFU => weights.evfu_scale.getD []
  let rawScore := (stageMap.lookup value).getD 0
  { rawScore := rawScore, weightedScore := rawScore * baseWeight }

/-- Modelled from the spec: the stage weight tables live in the prompt
configuration file `mvp_prompts_with_funnel_scoring.csv`, which is not among
the sources; only its consumer `computeStageSpecificScore` is.  The values
follow spec section 4.3: Awareness ranks map to 100/75/50/30/15 (here on the
0..1 scale that the old pipeline multiplies by 100), every stage maps `absent`
to the minimum 0, Decision maps every outcome other than `yes` to at most
0.66, and the other stages use mid-band representatives of their rubric
bands. -/
def specWeights : StageSpecificWeights :=
  { base_weight := 1,
    position_weights := some
      [("first", 1), ("second", 3/4), ("third", 1/2), ("fourth", 3/10),
       ("fifth", 3/20), ("absent", 0)],
    mofu_scale := some
      [("positive", 9/10), ("conditional", 3/5), ("neutral", 2/5),
       ("negative", 3/20), ("absent", 0)],
    bofu_scale := some
      [("yes", 1), ("partial", 33/50), ("unclear", 1/2), ("no", 1/5),
       ("absent", 0)],
    evfu_scale := some
      [("recommend", 9/10), ("caveat", 3/5), ("neutral", 2/5),
       ("negative", 3/20), ("absent", 0)] }

/-! ## Brand data and the prompt template store -/

/-- Join strings with a separator (`Array.prototype.join`). -/
def joinSep (sep : String) : List String → String
  | [] => ""
  | [s] => s
  | s :: rest => s ++ sep ++ joinSep sep rest

/-- `IBrand` (`types/brand.ts`), restricted to the members this pipeline
reads (the persistence identifiers and timestamps play no role here). -/
structure IBrand where
  name : String
  category : Option String
  region : Option String
  target_audience : Option (List String)
  competitors : Option (List String)
  use_case : Option String
  feature_list : Option (List String)

/-- A prompt as loaded from the CSV store (`ProcessedPrompt` of
`@/types/services`, read off its uses in `PromptService`). -/
structure ProcessedPrompt where
  prompt_id : String
  prompt_text : String
  funnel_stage : AnalysisStage

/-- `x || d` where `x` is a string: the empty string is falsy. -/
def jsOrStr (s : String) (d : String) : String := if s = "" then d else s

/-- `x?.member || d` where the whole member may be absent. -/
def jsOrOptStr (o : Option String) (d : String) : String :=
  match o with
  | some s => jsOrStr s d
  | none => d

/-- The placeholder table of `PromptService.replacePromptPlaceholders`, in
the insertion order of the object literal, with the source's fallbacks for
absent or empty brand members. -/
def placeholderPairs (brandData : IBrand) : List (String × String) :=
  [("\x7bbrand_name\x7d", jsOrStr brandData.name "Unknown Brand"),
   ("\x7bname\x7d", jsOrStr brandData.name "Unknown Brand"),
   ("\x7bcategory\x7d", jsOrOptStr brandData.category "business services"),
   ("\x7bregion\x7d", jsOrOptStr brandData.region "your region"),
   ("\x7baudience\x7d",
     match brandData.target_audience with
     | some l => jsOrStr (joinSep ", " l) "businesses"
     | none => "businesses"),
   ("\x7buse_case\x7d", jsOrOptStr brandData.use_case "general business needs"),
   ("\x7bcompetitor\x7d",
     match brandData.competitors with
     | some (c :: _) => jsOrStr c "industry leaders"
     | _ => "industry leaders"),
   ("\x7bfeature_list\x7d",
     match brandData.feature_list with
     | some l => jsOrStr (joinSep " and " (l.take 2)) "core services and features"
     | none => "core services and features")]

/-- Global replacement of one literal pattern (the source builds a global
regex from the escaped placeholder): scan left to right, replace each
occurrence, resume after the replacement. -/
def replaceAllF : Nat → List Char → List Char → List Char → List Char
  | 0, l, _, _ => l
  | _, [], _, _ => []
  | fuel + 1, c :: rest, pat, rep =>
    if pat.isPrefixOf (c :: rest) then
      rep ++ replaceAllF fuel ((c :: rest).drop pat.length) pat rep
    else c :: replaceAllF fuel rest pat rep

/-- `PromptService.replacePromptPlaceholders`: substitute every placeholder
in sequence. -/
def replacePromptPlaceholders (promptText : String) (brandData : IBrand) : String :=
  ⟨(placeholderPairs brandData).foldl
    (fun text kv => replaceAllF text.length text kv.1.data kv.2.data)
    promptText.data⟩

/-! ## Typed result model (interfaces of `@/types/services`, read off their
uses) and JavaScript number arithmetic

The per-prompt `sentiment` member is whatever JSON value the scoring judgment
carried (`scoringJson.sentiment` has type `any`; validation only requires a
truthy object), so the result records hold it as a JSON value.  The
aggregation loop then reads `sentiment.distribution[key]` and accumulates
with `+=`, which is modelled with explicit JavaScript number semantics:
`undefined` entering `+=` makes the accumulator `NaN`, and a property read on
an `undefined` or `null` member throws a `TypeError`. -/

/-- A JavaScript number as this pipeline's arithmetic can produce it: a
rational, or `NaN`. -/
inductive JsNum where
  | num (q : ℚ)
  | nan
deriving DecidableEq, Repr

/-- JavaScript `+` on numbers: `NaN` is absorbing. -/
def jsAdd : JsNum → JsNum → JsNum
  | .num a, .num b => .num (a + b)
  | _, _ => .nan

/-- `Math.max` on two numbers: `NaN` if either argument is `NaN`. -/
def jsMax : JsNum → JsNum → JsNum
  | .num a, .num b => .num (max a b)
  | _, _ => .nan

/-- JavaScript `>` on numbers: every comparison with `NaN` is false. -/
def jsGt : JsNum → JsNum → Bool
  | .num a, .num b => decide (b < a)
  | _, _ => false

/-- `x > 0` on a JavaScript number (`NaN > 0` is false). -/
def jsGtZero : JsNum → Bool
  | .num q => decide (0 < q)
  | .nan => false

/-- Division of a JavaScript number by a rational. -/
def jsDivQ : JsNum → ℚ → JsNum
  | .num a, q => .num (a / q)
  | .nan, _ => .nan

/-- Multiplication of a JavaScript number by a rational. -/
def jsMulQ : JsNum → ℚ → JsNum
  | .num a, q => .num (a * q)
  | .nan, _ => .nan

/-- The rational under a JavaScript number; the 0 for `NaN` is never read
behind a `jsGtZero` guard (a `NaN` never passes it). -/
def JsNum.toQ : JsNum → ℚ
  | .num q => q
  | .nan => 0

/-- The four `sentimentScores` accumulators of the aggregation loop, each a
JavaScript number (0 initially; possibly `NaN` after accumulation). -/
structure JsDistribution where
  positive : JsNum
  neutral : JsNum
  negative : JsNum
  strongly_positive : JsNum
deriving DecidableEq, Repr

/-- A sentiment distribution of plain numbers, as the aggregate output
carries it (the rounded percentages, or the all-zero initialization). -/
structure SentimentDistribution where
  positive : ℚ
  neutral : ℚ
  negative : ℚ
  strongly_positive : ℚ
deriving DecidableEq, Repr

/-- The `aggregatedSentiment` output record.  `confidence` is
`Math.round(Math.max(...)/count*100)`, which is `NaN` when an accumulator is
`NaN`, hence a JavaScript number. -/
structure SentimentAnalysis where
  overall : String
  confidence : JsNum
  distribution : SentimentDistribution
deriving DecidableEq, Repr

/-- Per-prompt status. -/
inductive ResStatus where
  | success | error
deriving DecidableEq, Repr

/-- Numeric member of a JSON object (used for `scoringJson.score`, which
validation has pinned to a number). -/
def Json.numAt (j : Json) (k : String) : ℚ :=
  match j.field k with
  | some (.num n) => n.toRat
  | _ => 0

/-- `x || d` on JSON values (used for `scoringJson.competitors_mentioned || []`
and `scoringJson.domain_citations || []`). -/
def jsOrJson (o : Option Json) (d : Json) : Json :=
  match o with
  | some v => if v.truthy then v else d
  | none => d

/-- `AIAnalysisResult` (declared in `@/types/services`): the single-prompt
analysis result.  `analysis` holds the judgment's rationale and `sentiment`
the judgment's sentiment member, both of which the code never narrows, hence
JSON values; on the error path they are the literals of the catch block. -/
structure AIAnalysisResult where
  score : ℚ
  position_weighted_score : ℚ
  response : String
  responseTime : ℚ
  sentiment : Json
  mentionPosition : Option ℚ
  analysis : Json
  status : ResStatus
  competitorData : Option (Json × Json)

/-- `ParsedAIResponse` together with the competitor payload, as returned by
the version-2 `parseAIResponse`. -/
structure ParsedAIResponse where
  score : ℚ
  position_weighted_score : ℚ
  mentionPosition : Option ℚ
  analysis : Json
  sentiment : Json
  status : ResStatus
  competitorData : Option (Json × Json)

/-! ## Message rendering for diagnostics

The exact strings of thrown errors, as `analyzeBrand` embeds them into its
error result.  `displayString` models template-literal coercion; it is only
ever used to format diagnostics, never inspected by a claim, and its fuel
bounds nesting depth. -/

/-- Spelling of a JSON number in a diagnostic message.  JavaScript prints the
double's shortest decimal; integer spellings agree with it, which is all the
pipeline's messages ever carry. -/
def displayNum (n : JsonNum) : String :=
  toString n.mantissa ++
    (if n.fracLen = 0 then "" else "e-" ++ toString n.fracLen) ++
    (if n.exp10 = 0 then "" else "e" ++ toString n.exp10)

/-- Template-literal coercion of a JSON value to text (`String(value)`):
`null` prints as "null" (but as "" inside an array join), arrays join their
elements with commas, plain objects print as "[object Object]". -/
def displayStringF : Nat → Json → String
  | _, .null => "null"
  | _, .bool b => if b then "true" else "false"
  | _, .num n => displayNum n
  | _, .str s => s
  | 0, _ => ""
  | fuel + 1, .arr xs =>
    joinSep "," (xs.map (fun e =>
      match e with
      | .null => ""
      | e => displayStringF fuel e))
  | _, .obj _ => "[object Object]"

/-- `displayStringF` with a fuel that no value this pipeline meets exhausts. -/
def displayString (j : Json) : String := displayStringF 1000 j

/-- The message of a validation failure, as the source formats it (the
`TypeError` wording is engine-specific; it is opaque to every claim). -/
def validationErrorMessage : ValidationError → String
  | .typeErrorIn f t =>
    "TypeError: cannot use in operator to search for " ++ f ++ " in " ++
      displayString t
  | .missingFields missing available =>
    "Missing required fields in AI response: " ++ joinSep ", " missing ++
      "\n" ++ "Available fields: " ++ joinSep ", " available
  | .invalidScore v =>
    "Invalid score value: " ++
      (match v with | some j => displayString j | none => "undefined") ++
      " (expected number)"
  | .invalidSentiment => "Invalid or missing sentiment object"

/-! ## The single-prompt analyzer (version-2 `AIService`)

The external LLM collaborator is an oracle: each prompt's environment holds
the outcome of the primary model call, the outcome of the ChatGPT scoring
call, and the elapsed time `Date.now() - startTime` would read if the catch
block runs. -/

/-- What one LLM call produced. -/
structure LLMReply where
  response : String
  responseTime : ℚ

/-- An LLM call either returns a reply or throws. -/
inductive CallOutcome where
  | ok (reply : LLMReply)
  | thrown (msg : String)

/-- The world one `analyzeBrand` invocation runs in. -/
structure PromptEnv where
  primaryCall : CallOutcome
  scoringCall : CallOutcome
  elapsedOnFailure : ℚ

/-- The version-2 `AIService.parseAIResponse`: feed the scoring call's text
through `extractAndParseJSON` and `validateParsedResponse`; on success build
the structured response verbatim from the judgment (`score` doubles as
`position_weighted_score`, `mentionPosition` is `null`); any failure is
rethrown as `Failed to parse AI response: ...`.  The scoring prompt and
system message only shape the oracle's reply and are not modelled
textually. -/
def parseAIResponse (scoringCall : CallOutcome) : Except String ParsedAIResponse :=
  match scoringCall with
  | .thrown msg => .error ("Failed to parse AI response: " ++ msg)
  | .ok reply =>
    match extractAndParseJSON reply.response with
    | .error e => .error ("Failed to parse AI response: " ++ extractErrorMessage e)
    | .ok scoringJson =>
      match validateParsedResponse scoringJson with
      | .error ve =>
        .error ("Failed to parse AI response: " ++ validationErrorMessage ve)
      | .ok _ =>
        .ok { score := scoringJson.numAt "score",
              position_weighted_score := scoringJson.numAt "score",
              mentionPosition := none,
              analysis := (scoringJson.field "rationale").getD .null,
              sentiment := (scoringJson.field "sentiment").getD .null,
              status := .success,
              competitorData := some
                (jsOrJson (scoringJson.field "competitors_mentioned") (.arr []),
                 jsOrJson (scoringJson.field "domain_citations") (.arr [])) }

/-- The sentiment object literal of `analyzeBrand`'s catch block: overall
negative, confidence 0, all-zero distribution. -/
def errorSentimentJson : Json :=
  .obj [("overall", .str "negative"), ("confidence", .num ⟨0, 0, 0⟩),
        ("distribution", .obj
          [("positive", .num ⟨0, 0, 0⟩), ("neutral", .num ⟨0, 0, 0⟩),
           ("negative", .num ⟨0, 0, 0⟩), ("strongly_positive", .num ⟨0, 0, 0⟩)])]

/-- The error result `analyzeBrand`'s catch block returns: score 0, the
diagnostic embedded in `response` and in place of the analysis text, the
elapsed time up to the failure, the all-zero negative sentiment literal,
`mentionPosition` 0. -/
def analyzeBrandErrorResult (msg : String) (elapsed : ℚ) : AIAnalysisResult :=
  { score := 0,
    position_weighted_score := 0,
    response := "Analysis failed: " ++ msg,
    responseTime := elapsed,
    sentiment := errorSentimentJson,
    mentionPosition := some 0,
    analysis := .str ("Analysis failed due to error: " ++ msg),
    status := .error,
    competitorData := none }

/-- The version-2 `AIService.analyzeBrand`: route to the model (all four
routes reach the same oracle outcome), parse and score the reply, and return
exactly one result — the success record, or the catch block's error record.
The stage only selects system-message text for the oracle; with a typed
stage, `getScoringSystemMessage`'s "Invalid stage" throw is unreachable. -/
def analyzeBrand (model : AIModel) (prompt : String) (brandData : IBrand)
    (stage : AnalysisStage) (env : PromptEnv) : AIAnalysisResult :=
  match env.primaryCall with
  | .thrown msg => analyzeBrandErrorResult msg env.elapsedOnFailure
  | .ok aiResponse =>
    match parseAIResponse env.scoringCall with
    | .error msg => analyzeBrandErrorResult msg env.elapsedOnFailure
    | .ok parsedData =>
      { score := parsedData.score,
        position_weighted_score := parsedData.position_weighted_score,
        response := aiResponse.response,
        responseTime := aiResponse.responseTime,
        sentiment := parsedData.sentiment,
        mentionPosition := parsedData.mentionPosition,
        analysis := parsedData.analysis,
        status := .success,
        competitorData := parsedData.competitorData }

/-- The failure condition of one `analyzeBrand` invocation: the message of
the first throw its try block meets (primary call, scoring call, extraction
or validation), if any. -/
def analyzeBrandFailure (env : PromptEnv) : Option String :=
  match env.primaryCall with
  | .thrown msg => some msg
  | .ok _ =>
    match parseAIResponse env.scoringCall with
    | .error msg => some msg
    | .ok _ => none

/-! ## The multi-prompt aggregator (version-2 `AIService`)

`analyzeWithMultiplePrompts` is modelled over the prompt list the store would
return for the stage (the CSV is external input) paired with each prompt's
oracle environment. -/

/-- One entry of `promptResults` (the per-prompt `sentiment` is the result's
JSON value, pushed verbatim). -/
structure PromptResultEntry where
  promptId : String
  promptText : String
  score : ℚ
  weightedScore : ℚ
  mentionPosition : Option ℚ
  response : String
  responseTime : ℚ
  sentiment : Json
  status : ResStatus
  competitorData : Option (Json × Json)

/-- `AIAnalysisResults` (`@/types/services`): the aggregate of one
(model, stage) run. -/
structure AIAnalysisResults where
  overallScore : ℚ
  weightedScore : ℚ
  promptResults : List PromptResultEntry
  aggregatedSentiment : SentimentAnalysis
  totalResponseTime : ℚ
  successRate : ℚ

/-- The aggregation state threaded through the prompt loop. -/
structure AggAcc where
  promptResults : List PromptResultEntry
  totalResponseTime : ℚ
  successfulPrompts : Nat
  totalWeightedScore : ℚ
  totalWeightSum : ℚ
  sentimentScores : JsDistribution

/-- The loop's starting state. -/
def initAcc : AggAcc :=
  { promptResults := [], totalResponseTime := 0, successfulPrompts := 0,
    totalWeightedScore := 0, totalWeightSum := 0,
    sentimentScores := ⟨.num 0, .num 0, .num 0, .num 0⟩ }

/-- The result `analyzeBrand` returns for one run of the loop. -/
def runResult (brandData : IBrand) (model : AIModel) (stage : AnalysisStage)
    (run : ProcessedPrompt × PromptEnv) : AIAnalysisResult :=
  analyzeBrand model (replacePromptPlaceholders run.1.prompt_text brandData)
    brandData stage run.2

/-- The `promptResults` entry pushed for one prompt: identifiers, scores and
status verbatim from the analysis result, the response wrapped with the
recommendation on success. -/
def entryOf (brandData : IBrand) (model : AIModel) (stage : AnalysisStage)
    (run : ProcessedPrompt × PromptEnv) : PromptResultEntry :=
  let analysisResult := runResult brandData model stage run
  { promptId := run.1.prompt_id,
    promptText := replacePromptPlaceholders run.1.prompt_text brandData,
    score := analysisResult.score,
    weightedScore := analysisResult.position_weighted_score,
    mentionPosition := analysisResult.mentionPosition,
    response :=
      if analysisResult.status = .success then
        "Response: \n\n " ++ analysisResult.response ++
          " \n\n Recommendation: " ++ displayString analysisResult.analysis
      else analysisResult.response,
    responseTime := analysisResult.responseTime,
    sentiment := analysisResult.sentiment,
    status := analysisResult.status,
    competitorData := analysisResult.competitorData }

/-- JavaScript property read `v[key]` for this pipeline's fixed keys: a
member of an object, `undefined` for anything else (array index properties
and `length` are never among the four sentiment keys). -/
def jsProp (v : Json) (key : String) : Option Json :=
  v.field key

/-- The message of the `TypeError` raised by `undefined[key]` on the first
sentiment key.  (The wording is engine-specific — V8 writes
`Cannot read properties of undefined (reading 'positive')` — and is opaque
to every claim.) -/
def typeErrorUndefinedMsg : String :=
  "TypeError: cannot read properties of undefined reading positive"

/-- The message of the `TypeError` raised by `null[key]` on the first
sentiment key. -/
def typeErrorNullMsg : String :=
  "TypeError: cannot read properties of null reading positive"

/-- `x += m` where `x` is a JavaScript number accumulator and `m` a read
property (possibly `undefined`): `undefined` makes the accumulator `NaN`;
`null` adds 0 and a boolean adds 0 or 1 (their numeric coercions).  A
string, array or object member would turn the accumulator into a string by
concatenation; the model folds that degenerate shape into `NaN`, and no
theorem below quantifies over judgments with such members (every hypothesis
that touches the accumulators requires the summed total to be a number). -/
def jsAddMember (a : JsNum) (m : Option Json) : JsNum :=
  match m with
  | none => .nan
  | some (.num n) => jsAdd a (.num n.toRat)
  | some .null => jsAdd a (.num 0)
  | some (.bool b) => jsAdd a (.num (if b then 1 else 0))
  | some (.str _) => .nan
  | some (.arr _) => .nan
  | some (.obj _) => .nan

/-- The loop's `Object.keys(sentimentScores).forEach(key => sentimentScores[key]
+= analysisResult.sentiment.distribution[key])`: reading
`sentiment.distribution` yields a member or `undefined`; indexing an
`undefined` or `null` member throws a `TypeError` at the first key
(`positive`, in insertion order), otherwise each accumulator absorbs its
member. -/
def accumulateSentiment (scores : JsDistribution) (sentiment : Json) :
    Except String JsDistribution :=
  match sentiment.field "distribution" with
  | none => .error typeErrorUndefinedMsg
  | some .null => .error typeErrorNullMsg
  | some dist =>
    .ok { positive := jsAddMember scores.positive (jsProp dist "positive"),
          neutral := jsAddMember scores.neutral (jsProp dist "neutral"),
          negative := jsAddMember scores.negative (jsProp dist "negative"),
          strongly_positive :=
            jsAddMember scores.strongly_positive (jsProp dist "strongly_positive") }

/-- Whether the accumulation of a sentiment value proceeds without throwing:
its `distribution` member exists and is not `null`. -/
def hasDistribution (sentiment : Json) : Bool :=
  match sentiment.field "distribution" with
  | none => false
  | some .null => false
  | some _ => true

/-- One iteration of the prompt loop: push the entry, add the response time,
and on success bump the counters and accumulate the sentiment distribution —
which can throw, aborting the whole loop (the source has no try/catch inside
it).  A thrown earlier iteration short-circuits the rest.  (The 500 ms
inter-call delay only spends wall-clock time.) -/
def aggStep (brandData : IBrand) (model : AIModel) (stage : AnalysisStage)
    (acc : Except String AggAcc) (run : ProcessedPrompt × PromptEnv) :
    Except String AggAcc :=
  match acc with
  | .error e => .error e
  | .ok acc =>
    let analysisResult := runResult brandData model stage run
    let acc' : AggAcc :=
      { acc with
        promptResults := acc.promptResults ++ [entryOf brandData model stage run],
        totalResponseTime := acc.totalResponseTime + analysisResult.responseTime }
    if analysisResult.status = .success then
      match accumulateSentiment acc.sentimentScores analysisResult.sentiment with
      | .error e => .error e
      | .ok scores =>
        .ok { acc' with
          successfulPrompts := acc.successfulPrompts + 1,
          totalWeightedScore := acc.totalWeightedScore + analysisResult.position_weighted_score,
          totalWeightSum := acc.totalWeightSum + 1,
          sentimentScores := scores }
    else .ok acc'

/-- `Math.round`: round half toward positive infinity. -/
def jsRound (q : ℚ) : ℤ := ⌊q + 1/2⌋

/-- `Math.round` on a JavaScript number: `Math.round(NaN)` is `NaN`. -/
def jsRoundJs : JsNum → JsNum
  | .num q => .num ((jsRound q : ℤ) : ℚ)
  | .nan => .nan

/-- `x || 0` on the computed score (`null` becomes 0; a zero mean stays 0). -/
def jsOrElseZero : Option ℚ → ℚ
  | none => 0
  | some q => if q = 0 then 0 else q

/-- `Object.values(sentimentScores).reduce((sum, val) => sum + val, 0)`:
`NaN` in any accumulator poisons the total. -/
def jsDistSum (s : JsDistribution) : JsNum :=
  jsAdd (jsAdd (jsAdd (jsAdd (.num 0) s.positive) s.neutral) s.negative)
    s.strongly_positive

/-- `Math.max(...Object.values(sentimentScores))`. -/
def maxComponent (d : JsDistribution) : JsNum :=
  jsMax (jsMax d.positive d.neutral) (jsMax d.negative d.strongly_positive)

/-- The renormalized, rounded sentiment distribution: set only when the
summed total is a number greater than 0 (`NaN > 0` is false in JavaScript),
all zeros otherwise.  Behind the guard every accumulator is a number (a
`NaN` component would have poisoned the total), so reading the rationals
with `JsNum.toQ` is exact. -/
def roundedDistribution (s : JsDistribution) : SentimentDistribution :=
  if jsGtZero (jsDistSum s) then
    { positive := (jsRound (s.positive.toQ / (jsDistSum s).toQ * 100) : ℚ),
      neutral := (jsRound (s.neutral.toQ / (jsDistSum s).toQ * 100) : ℚ),
      negative := (jsRound (s.negative.toQ / (jsDistSum s).toQ * 100) : ℚ),
      strongly_positive :=
        (jsRound (s.strongly_positive.toQ / (jsDistSum s).toQ * 100) : ℚ) }
  else ⟨0, 0, 0, 0⟩

/-- The aggregate record the success path of `analyzeWithMultiplePrompts`
returns, computed from the final loop state: mean score over successful
prompts only (`null`-to-0 coalesced), success rate over all prompts,
renormalized and rounded sentiment distribution when its summed total is a
positive number, the overall label by `positive`/`negative` comparison
(false on `NaN`, hence `neutral`), and the confidence
`Math.round(max Object values / count * 100)` (`NaN` when poisoned). -/
def buildResults (acc : AggAcc) (totalPrompts : Nat) : AIAnalysisResults :=
  let overallScore : Option ℚ :=
    if acc.successfulPrompts > 0 then
      some (((acc.promptResults.filter (fun r => r.status = .success)).map
        (fun r => r.score)).sum / (acc.successfulPrompts : ℚ))
    else none
  let weightedScore : Option ℚ :=
    if acc.totalWeightSum > 0 then
      some (acc.totalWeightedScore / acc.totalWeightSum)
    else none
  let successRate : ℚ := ((acc.successfulPrompts : ℚ) / (totalPrompts : ℚ)) * 100
  let aggregatedSentiment : SentimentAnalysis :=
    { overall :=
        if jsGt acc.sentimentScores.positive acc.sentimentScores.negative then
          "positive"
        else if jsGt acc.sentimentScores.negative acc.sentimentScores.positive then
          "negative"
        else "neutral",
      confidence :=
        jsRoundJs (jsMulQ (jsDivQ (maxComponent acc.sentimentScores)
          (acc.successfulPrompts : ℚ)) 100),
      distribution := roundedDistribution acc.sentimentScores }
  { overallScore := jsOrElseZero overallScore,
    weightedScore := jsOrElseZero weightedScore,
    promptResults := acc.promptResults,
    aggregatedSentiment := aggregatedSentiment,
    totalResponseTime := acc.totalResponseTime,
    successRate := successRate }

/-- The prefix the outer catch puts on every rethrown error. -/
def wrapFatal (msg : String) : String :=
  "Failed to complete multi-prompt analysis: " ++ msg

/-- The message of the throw when every prompt of a stage failed. -/
def allPromptsFailedMsg (n : Nat) (model : AIModel) (stage : AnalysisStage) :
    String :=
  "All " ++ toString n ++ " prompts failed for " ++ modelName model ++ "-" ++
    stageName stage ++ ". Check promptResults for individual error details."

/-- The version-2 `AIService.analyzeWithMultiplePrompts`: fail on an empty
prompt list; run every prompt sequentially through `analyzeBrand`, the
sentiment accumulation possibly throwing out of the loop; throw when zero
prompts succeeded; otherwise aggregate via `buildResults`.  Every throw
lands in the outer catch and is rethrown with the
`Failed to complete multi-prompt analysis:` prefix. -/
def analyzeWithMultiplePrompts (brandData : IBrand) (model : AIModel)
    (stage : AnalysisStage) (runs : List (ProcessedPrompt × PromptEnv)) :
    Except String AIAnalysisResults :=
  if runs.isEmpty then
    .error (wrapFatal ("No prompts found for stage: " ++ stageName stage))
  else
    match runs.foldl (aggStep brandData model stage) (.ok initAcc) with
    | .error e => .error (wrapFatal e)
    | .ok acc =>
      if acc.successfulPrompts = 0 then
        .error (wrapFatal (allPromptsFailedMsg runs.length model stage))
      else
        .ok (buildResults acc runs.length)

/-- Number of runs whose `analyzeBrand` result reports success (the
specification-side count the theorems compare the loop's counter against). -/
def successCount (brandData : IBrand) (model : AIModel) (stage : AnalysisStage)
    (runs : List (ProcessedPrompt × PromptEnv)) : Nat :=
  (runs.filter (fun run => (runResult brandData model stage run).status = .success)).length

/-- The scores of the successful runs, in order (specification side). -/
def successScores (brandData : IBrand) (model : AIModel) (stage : AnalysisStage)
    (runs : List (ProcessedPrompt × PromptEnv)) : List ℚ :=
  (runs.filter (fun run => (runResult brandData model stage run).status = .success)).map
    (fun run => (runResult brandData model stage run).score)

/-- Whether every successful run's sentiment can be accumulated without a
`TypeError` (specification side: the hypothesis under which the loop
completes). -/
def hazardFree (brandData : IBrand) (model : AIModel) (stage : AnalysisStage)
    (runs : List (ProcessedPrompt × PromptEnv)) : Prop :=
  ∀ run ∈ runs, (runResult brandData model stage run).status = .success →
    hasDistribution (runResult brandData model stage run).sentiment = true

/-! ## Concrete fixtures

Inputs used by witnesses and counterexamples: a brand, prompt templates, and
oracle environments whose scoring replies are concrete judgment texts. -/

/-- The spec's example judgment text (section 8), serialized without
whitespace. -/
def score85Text : String :=
  "\x7b\"score\":85,\"confidence\":90,\"rationale\":\"ok\",\"sentiment\":" ++
  "\x7b\"overall\":\"positive\",\"confidence\":80,\"distribution\":" ++
  "\x7b\"positive\":80,\"neutral\":10,\"negative\":5,\"strongly_positive\":5\x7d\x7d\x7d"

/-- The JSON value the spec's example judgment denotes. -/
def score85Json : Json :=
  .obj [("score", .num ⟨85, 0, 0⟩), ("confidence", .num ⟨90, 0, 0⟩),
        ("rationale", .str "ok"),
        ("sentiment", .obj
          [("overall", .str "positive"), ("confidence", .num ⟨80, 0, 0⟩),
           ("distribution", .obj
             [("positive", .num ⟨80, 0, 0⟩), ("neutral", .num ⟨10, 0, 0⟩),
              ("negative", .num ⟨5, 0, 0⟩),
              ("strongly_positive", .num ⟨5, 0, 0⟩)])])]

/-- The spec's example judgment with a trailing comma inserted before a
closing brace (inside the distribution object). -/
def score85TrailingComma : String :=
  "\x7b\"score\":85,\"confidence\":90,\"rationale\":\"ok\",\"sentiment\":" ++
  "\x7b\"overall\":\"positive\",\"confidence\":80,\"distribution\":" ++
  "\x7b\"positive\":80,\"neutral\":10,\"negative\":5,\"strongly_positive\":5,\x7d\x7d\x7d"

/-- The spec's example judgment with every double quote replaced by a single
quote. -/
def score85SingleQuoted : String :=
  ⟨score85Text.data.map (fun c => if c = dquote then squote else c)⟩

/-- The serialization whose parse the round-trip counterexample corrupts: an
object whose only string value is the two characters comma-closing-brace. -/
def commaBraceText : String := "\x7b\"a\":\",\x7d\"\x7d"

/-- A brand with only a name. -/
def brandX : IBrand :=
  { name := "Acme", category := none, region := none, target_audience := none,
    competitors := none, use_case := none, feature_list := none }

/-- A configured prompt. -/
def promptX : ProcessedPrompt :=
  { prompt_id := "P1", prompt_text := "Tell me about \x7bbrand_name\x7d",
    funnel_stage := .TOFU }

/-- A second configured prompt. -/
def promptY : ProcessedPrompt :=
  { prompt_id := "P2", prompt_text := "Rank providers near \x7bregion\x7d",
    funnel_stage := .TOFU }

/-- An environment whose primary LLM call throws. -/
def envFail : PromptEnv :=
  { primaryCall := .thrown "Network error",
    scoringCall := .thrown "unreached", elapsedOnFailure := 1234 }

/-- An environment whose calls both succeed, the scoring call replying with
the given judgment text. -/
def envOkWith (judgment : String) : PromptEnv :=
  { primaryCall := .ok ⟨"raw model answer", 100⟩,
    scoringCall := .ok ⟨judgment, 50⟩, elapsedOnFailure := 0 }

/-- Twenty prompts of which exactly the last succeeds (with the spec's
score-85 judgment). -/
def runs20 : List (ProcessedPrompt × PromptEnv) :=
  List.replicate 19 (promptX, envFail) ++ [(promptX, envOkWith score85Text)]

/-- A judgment that passes validation (sentiment is a truthy object) but
whose sentiment has no `distribution` member: the aggregation loop's
`sentiment.distribution[key]` read throws a `TypeError`. -/
def noDistText : String :=
  "\x7b\"score\":85,\"confidence\":90,\"rationale\":\"ok\",\"sentiment\":" ++
  "\x7b\"overall\":\"positive\"\x7d\x7d"

theorem buildResults_promptResults (acc : AggAcc) (n : Nat) :
    (buildResults acc n).promptResults = acc.promptResults := rfl

theorem buildResults_successRate (acc : AggAcc) (n : Nat) :
    (buildResults acc n).successRate =
      ((acc.successfulPrompts : ℚ) / (n : ℚ)) * 100 := rfl

theorem buildResults_overallScore (acc : AggAcc) (n : Nat) :
    (buildResults acc n).overallScore =
      jsOrElseZero
        (if acc.successfulPrompts > 0 then
          some (((acc.promptResults.filter (fun r => r.status = .success)).map
            (fun r => r.score)).sum / (acc.successfulPrompts : ℚ))
        else none) := rfl

/-- A sentiment value with a present non-null `distribution` accumulates
without throwing. -/
theorem accumulateSentiment_ok_of_hasDistribution (scores : JsDistribution)
    (sentiment : Json) (h : hasDistribution sentiment = true) :
    ∃ scores', accumulateSentiment scores sentiment = .ok scores' := by
  unfold accumulateSentiment
  cases hd : sentiment.field "distribution" with
  | none => simp [hasDistribution, hd] at h
  | some dist =>
    cases dist with
    | null => simp [hasDistribution, hd] at h
    | bool b => exact ⟨_, rfl⟩
    | num n => exact ⟨_, rfl⟩
    | str s => exact ⟨_, rfl⟩
    | arr elems => exact ⟨_, rfl⟩
    | obj fields => exact ⟨_, rfl⟩

/-- The accumulation can only throw one of the two `TypeError` messages. -/
theorem accumulateSentiment_error_classify (scores : JsDistribution)
    (sentiment : Json) (e : String)
    (h : accumulateSentiment scores sentiment = .error e) :
    e = typeErrorUndefinedMsg ∨ e = typeErrorNullMsg := by
  unfold accumulateSentiment at h
  cases hd : sentiment.field "distribution" with
  | none =>
    rw [hd] at h
    injection h with h'
    exact Or.inl h'.symm
  | some dist =>
    rw [hd] at h
    cases dist with
    | null =>
      injection h with h'
      exact Or.inr h'.symm
    | bool b => exact Except.noConfusion h
    | num n => exact Except.noConfusion h
    | str s => exact Except.noConfusion h
    | arr elems => exact Except.noConfusion h
    | obj fields => exact Except.noConfusion h

/-- Inverting one completed loop iteration: the entry was pushed and the
success counter bumped exactly when the result reported success. -/
theorem aggStep_ok_inv (brandData : IBrand) (model : AIModel)
    (stage : AnalysisStage) (acc : AggAcc) (run : ProcessedPrompt × PromptEnv)
    (acc1 : AggAcc)
    (h : aggStep brandData model stage (.ok acc) run = .ok acc1) :
    acc1.promptResults = acc.promptResults ++ [entryOf brandData model stage run] ∧
    acc1.successfulPrompts = acc.successfulPrompts +
      (if (runResult brandData model stage run).status = .success then 1 else 0) := by
  by_cases hs : (runResult brandData model stage run).status = .success
  · cases hacc : accumulateSentiment acc.sentimentScores
        (runResult brandData model stage run).sentiment with
    | error e => simp [aggStep, hs, hacc] at h
    | ok scores =>
      simp only [aggStep, hs, hacc, if_true, Except.ok.injEq] at h
      subst h
      exact ⟨rfl, by simp [hs]⟩
  · simp only [aggStep, hs, if_false, Except.ok.injEq] at h
    subst h
    exact ⟨rfl, by simp [hs]⟩

/-- A thrown iteration aborts the rest of the loop. -/
theorem foldl_aggStep_error (brandData : IBrand) (model : AIModel)
    (stage : AnalysisStage) (runs : List (ProcessedPrompt × PromptEnv))
    (e : String) :
    runs.foldl (aggStep brandData model stage) (.error e) = .error e := by
  induction runs with
  | nil => rfl
  | cons r rest ih =>
    rw [List.foldl_cons, show aggStep brandData model stage (.error e) r =
      .error e from rfl]
    exact ih

theorem foldl_aggStep_ok_promptResults (brandData : IBrand) (model : AIModel)
    (stage : AnalysisStage) :
    ∀ (runs : List (ProcessedPrompt × PromptEnv)) (acc acc' : AggAcc),
      runs.foldl (aggStep brandData model stage) (.ok acc) = .ok acc' →
      acc'.promptResults = acc.promptResults ++ runs.map (entryOf brandData model stage) := by
  intro runs
  induction runs with
  | nil =>
    intro acc acc' h
    injection h with h'
    subst h'
    simp
  | cons r rest ih =>
    intro acc acc' h
    rw [List.foldl_cons] at h
    cases hstep : aggStep brandData model stage (.ok acc) r with
    | error e =>
      rw [hstep, foldl_aggStep_error] at h
      exact Except.noConfusion h
    | ok acc1 =>
      rw [hstep] at h
      obtain ⟨hp, -⟩ := aggStep_ok_inv brandData model stage acc r acc1 hstep
      rw [ih acc1 acc' h, hp]
      simp

theorem foldl_aggStep_ok_successfulPrompts (brandData : IBrand) (model : AIModel)
    (stage : AnalysisStage) :
    ∀ (runs : List (ProcessedPrompt × PromptEnv)) (acc acc' : AggAcc),
      runs.foldl (aggStep brandData model stage) (.ok acc) = .ok acc' →
      acc'.successfulPrompts =
        acc.successfulPrompts + successCount brandData model stage runs := by
  intro runs
  induction runs with
  | nil =>
    intro acc acc' h
    injection h with h'
    subst h'
    simp [successCount]
  | cons r rest ih =>
    intro acc acc' h
    rw [List.foldl_cons] at h
    cases hstep : aggStep brandData model stage (.ok acc) r with
    | error e =>
      rw [hstep, foldl_aggStep_error] at h
      exact Except.noConfusion h
    | ok acc1 =>
      rw [hstep] at h
      obtain ⟨-, hsp⟩ := aggStep_ok_inv brandData model stage acc r acc1 hstep
      rw [ih acc1 acc' h, hsp]
      simp only [successCount, List.filter_cons]
      by_cases hs : (runResult brandData model stage r).status = .success
      · simp [hs]
        omega
      · simp [hs]

/-- A thrown loop carries one of the two `TypeError` messages. -/
theorem foldl_aggStep_error_classify (brandData : IBrand) (model : AIModel)
    (stage : AnalysisStage) :
    ∀ (runs : List (ProcessedPrompt × PromptEnv)) (acc : AggAcc) (e : String),
      runs.foldl (aggStep brandData model stage) (.ok acc) = .error e →
      e = typeErrorUndefinedMsg ∨ e = typeErrorNullMsg := by
  intro runs
  induction runs with
  | nil =>
    intro acc e h
    exact Except.noConfusion h
  | cons r rest ih =>
    intro acc e h
    rw [List.foldl_cons] at h
    cases hstep : aggStep brandData model stage (.ok acc) r with
    | error e' =>
      rw [hstep, foldl_aggStep_error] at h
      injection h with h'
      subst h'
      by_cases hs : (runResult brandData model stage r).status = .success
      · cases hacc : accumulateSentiment acc.sentimentScores
            (runResult brandData model stage r).sentiment with
        | error e2 =>
          simp only [aggStep, hs, hacc, if_true, Except.error.injEq] at hstep
          exact hstep ▸ accumulateSentiment_error_classify _ _ _ hacc
        | ok scores => simp [aggStep, hs, hacc] at hstep
      · simp [aggStep, hs] at hstep
    | ok acc1 =>
      rw [hstep] at h
      exact ih acc1 e h

/-- Under the hazard-free hypothesis the loop completes. -/
theorem foldl_aggStep_ok_of_hazardFree (brandData : IBrand) (model : AIModel)
    (stage : AnalysisStage) :
    ∀ (runs : List (ProcessedPrompt × PromptEnv)),
      hazardFree brandData model stage runs →
      ∀ acc : AggAcc,
        ∃ acc', runs.foldl (aggStep brandData model stage) (.ok acc) = .ok acc' := by
  intro runs
  induction runs with
  | nil => intro _ acc; exact ⟨acc, rfl⟩
  | cons r rest ih =>
    intro hfree acc
    cases hstep : aggStep brandData model stage (.ok acc) r with
    | ok acc1 =>
      obtain ⟨acc', h'⟩ := ih (fun run hr => hfree run (List.mem_cons_of_mem _ hr)) acc1
      exact ⟨acc', by rw [List.foldl_cons, hstep]; exact h'⟩
    | error e =>
      exfalso
      by_cases hs : (runResult brandData model stage r).status = .success
      · obtain ⟨s', hs'⟩ := accumulateSentiment_ok_of_hasDistribution
          acc.sentimentScores _ (hfree r (by simp) hs)
        simp [aggStep, hs, hs'] at hstep
      · simp [aggStep, hs] at hstep

/-- A zero-success run is vacuously hazard-free. -/
theorem hazardFree_of_successCount_zero (brandData : IBrand) (model : AIModel)
    (stage : AnalysisStage) (runs : List (ProcessedPrompt × PromptEnv))
    (hzero : successCount brandData model stage runs = 0) :
    hazardFree brandData model stage runs := by
  intro run hr hs
  exfalso
  have : runs.filter
      (fun run => (runResult brandData model stage run).status = .success) = [] :=
    List.eq_nil_of_length_eq_zero hzero
  have := List.filter_eq_nil_iff.mp this run hr
  simp [hs] at this

/-- A loop that threw makes the whole analysis rethrow the wrapped error. -/
theorem analyzeWMP_foldl_error (brandData : IBrand) (model : AIModel)
    (stage : AnalysisStage) (runs : List (ProcessedPrompt × PromptEnv))
    (e : String) (hni : runs.isEmpty = false)
    (hacc : runs.foldl (aggStep brandData model stage) (.ok initAcc) = .error e) :
    analyzeWithMultiplePrompts brandData model stage runs =
      .error (wrapFatal e) := by
  unfold analyzeWithMultiplePrompts
  rw [hni]
  simp only [Bool.false_eq_true, if_false]
  rw [hacc]

/-- A completed loop makes the analysis check the success counter and either
throw all-prompts-failed or aggregate. -/
theorem analyzeWMP_foldl_ok (brandData : IBrand) (model : AIModel)
    (stage : AnalysisStage) (runs : List (ProcessedPrompt × PromptEnv))
    (acc : AggAcc) (hni : runs.isEmpty = false)
    (hacc : runs.foldl (aggStep brandData model stage) (.ok initAcc) = .ok acc) :
    analyzeWithMultiplePrompts brandData model stage runs =
      (if acc.successfulPrompts = 0 then
        .error (wrapFatal (allPromptsFailedMsg runs.length model stage))
      else .ok (buildResults acc runs.length)) := by
  unfold analyzeWithMultiplePrompts
  rw [hni]
  simp only [Bool.false_eq_true, if_false]
  rw [hacc]

/-- Inverting a successful aggregation: the prompt list was nonempty, the
loop completed with a final state in which at least one prompt succeeded,
and the aggregate is `buildResults` of that state. -/
theorem analyzeWMP_ok_iff (brandData : IBrand) (model : AIModel)
    (stage : AnalysisStage) (runs : List (ProcessedPrompt × PromptEnv))
    (agg : AIAnalysisResults) :
    analyzeWithMultiplePrompts brandData model stage runs = .ok agg ↔
      runs ≠ [] ∧ ∃ acc,
        runs.foldl (aggStep brandData model stage) (.ok initAcc) = .ok acc ∧
        acc.successfulPrompts ≠ 0 ∧ agg = buildResults acc runs.length := by
  by_cases hne : runs = []
  · subst hne
    simp [analyzeWithMultiplePrompts]
  · have hni : runs.isEmpty = false := by
      cases runs with
      | nil => exact absurd rfl hne
      | cons a l => rfl
    cases hacc : runs.foldl (aggStep brandData model stage) (.ok initAcc) with
    | error e =>
      rw [analyzeWMP_foldl_error brandData model stage runs e hni hacc]
      simp [hacc]
    | ok acc =>
      rw [analyzeWMP_foldl_ok brandData model stage runs acc hni hacc]
      by_cases hz : acc.successfulPrompts = 0
      · rw [if_pos hz]
        constructor
        · intro h
          exact Except.noConfusion h
        · rintro ⟨-, acc', hacc', hz', rfl⟩
          injection hacc' with h2
          exact absurd (h2 ▸ hz) hz'
      · rw [if_neg hz]
        constructor
        · intro h
          injection h with h'
          exact ⟨hne, acc, rfl, hz, h'.symm⟩
        · rintro ⟨-, acc', hacc', -, rfl⟩
          injection hacc' with h2
          rw [h2]

/-- `x || 0` on a present value is the value itself. -/
theorem jsOrElseZero_some (q : ℚ) : jsOrElseZero (some q) = q := by
  by_cases h : q = 0 <;> simp [jsOrElseZero, h]

/-! ## Error-message disambiguation -/

theorem string_data_append (s t : String) : (s ++ t).data = s.data ++ t.data := by
  cases s
  cases t
  rfl

theorem wrapFatal_inj (a b : String) (h : wrapFatal a = wrapFatal b) : a = b := by
  have hd := congrArg String.data h
  simp only [wrapFatal, string_data_append] at hd
  have h2 := List.append_cancel_left hd
  cases a
  cases b
  exact congrArg String.mk h2

theorem allPromptsFailedMsg_head (n : Nat) (model : AIModel) (stage : AnalysisStage) :
    (allPromptsFailedMsg n model stage).data.head? = some 'A' := by
  simp only [allPromptsFailedMsg, string_data_append, List.append_assoc]
  rfl

theorem typeErrorUndefinedMsg_ne_allPromptsFailed (n : Nat) (model : AIModel)
    (stage : AnalysisStage) :
    typeErrorUndefinedMsg ≠ allPromptsFailedMsg n model stage := by
  intro h
  have h2 : typeErrorUndefinedMsg.data.head? =
      (allPromptsFailedMsg n model stage).data.head? := by rw [h]
  rw [allPromptsFailedMsg_head] at h2
  exact absurd h2 (by decide)

theorem typeErrorNullMsg_ne_allPromptsFailed (n : Nat) (model : AIModel)
    (stage : AnalysisStage) :
    typeErrorNullMsg ≠ allPromptsFailedMsg n model stage := by
  intro h
  have h2 : typeErrorNullMsg.data.head? =
      (allPromptsFailedMsg n model stage).data.head? := by rw [h]
  rw [allPromptsFailedMsg_head] at h2
  exact absurd h2 (by decide)

/-! ## The claims -/

/-- C1 counterexample: a run whose single prompt succeeds — its judgment
passes validation because `sentiment` is a truthy object, but that object
has no `distribution` member — makes the aggregation loop throw a
`TypeError` out of `analyzeWithMultiplePrompts` (wrapped by the outer
catch), so the run returns no aggregate even though one prompt succeeded;
and the thrown error is not the all-prompts-failed error. -/
theorem analyzeWithMultiplePrompts_typeError_counterexample :
    successCount brandX .ChatGPT .TOFU [(promptX, envOkWith noDistText)] = 1 ∧
    analyzeWithMultiplePrompts brandX .ChatGPT .TOFU
        [(promptX, envOkWith noDistText)] =
      .error (wrapFatal typeErrorUndefinedMsg) ∧
    wrapFatal typeErrorUndefinedMsg ≠
      wrapFatal (allPromptsFailedMsg 1 .ChatGPT .TOFU) := by
  refine ⟨by decide, rfl, fun h => ?_⟩
  exact typeErrorUndefinedMsg_ne_allPromptsFailed 1 .ChatGPT .TOFU
    (wrapFatal_inj _ _ h)

/-- C1 amended: for every brand, model and funnel stage having at least one
configured prompt, `analyzeWithMultiplePrompts` throws the all-prompts-failed
error if and only if zero of the stage's prompts produced a
`status = success` result; and whenever at least one prompt succeeds AND
every successful prompt's sentiment carries a present, non-null
`distribution` (so the accumulation loop cannot throw a `TypeError`), it
returns an `AIAnalysisResults` aggregate normally without throwing. -/
theorem analyzeWithMultiplePrompts_allPromptsFailed_iff
    (brandData : IBrand) (model : AIModel) (stage : AnalysisStage)
    (runs : List (ProcessedPrompt × PromptEnv)) (hne : runs ≠ []) :
    (analyzeWithMultiplePrompts brandData model stage runs =
        .error (wrapFatal (allPromptsFailedMsg runs.length model stage))
      ↔ successCount brandData model stage runs = 0)
  ∧ (successCount brandData model stage runs ≠ 0 →
      hazardFree brandData model stage runs →
      ∃ agg, analyzeWithMultiplePrompts brandData model stage runs = .ok agg) := by
  have hni : runs.isEmpty = false := by
    cases runs with
    | nil => exact absurd rfl hne
    | cons a l => rfl
  refine ⟨⟨fun h => ?_, fun hzero => ?_⟩, fun hzero hfree => ?_⟩
  · by_contra hzero
    cases hacc : runs.foldl (aggStep brandData model stage) (.ok initAcc) with
    | error e =>
      rw [analyzeWMP_foldl_error brandData model stage runs e hni hacc] at h
      injection h with h'
      have he := wrapFatal_inj _ _ h'
      cases foldl_aggStep_error_classify brandData model stage runs initAcc e hacc with
      | inl h1 =>
        exact typeErrorUndefinedMsg_ne_allPromptsFailed runs.length model stage
          (h1 ▸ he)
      | inr h1 =>
        exact typeErrorNullMsg_ne_allPromptsFailed runs.length model stage
          (h1 ▸ he)
    | ok acc =>
      rw [analyzeWMP_foldl_ok brandData model stage runs acc hni hacc] at h
      have hsp := foldl_aggStep_ok_successfulPrompts brandData model stage runs
        initAcc acc hacc
      have hnz : acc.successfulPrompts ≠ 0 := by
        rw [hsp]
        simpa [initAcc] using hzero
      rw [if_neg hnz] at h
      exact Except.noConfusion h
  · obtain ⟨acc, hacc⟩ := foldl_aggStep_ok_of_hazardFree brandData model stage runs
      (hazardFree_of_successCount_zero brandData model stage runs hzero) initAcc
    have hsp := foldl_aggStep_ok_successfulPrompts brandData model stage runs
      initAcc acc hacc
    have hsp0 : acc.successfulPrompts = 0 := by
      simp [hsp, hzero, initAcc]
    rw [analyzeWMP_foldl_ok brandData model stage runs acc hni hacc, if_pos hsp0]
  · obtain ⟨acc, hacc⟩ :=
      foldl_aggStep_ok_of_hazardFree brandData model stage runs hfree initAcc
    have hsp := foldl_aggStep_ok_successfulPrompts brandData model stage runs
      initAcc acc hacc
    have hnz : acc.successfulPrompts ≠ 0 := by
      rw [hsp]
      simpa [initAcc] using hzero
    exact ⟨buildResults acc runs.length,
      (analyzeWMP_ok_iff brandData model stage runs _).mpr
        ⟨hne, acc, hacc, hnz, rfl⟩⟩

/-- Witness for C1 at concrete inputs: a one-prompt run whose only prompt
fails throws the all-prompts-failed error, and a one-prompt run whose prompt
succeeds with a full distribution returns an aggregate. -/
theorem analyzeWithMultiplePrompts_allPromptsFailed_iff_witness :
    analyzeWithMultiplePrompts brandX .ChatGPT .TOFU [(promptX, envFail)] =
      .error (wrapFatal (allPromptsFailedMsg 1 .ChatGPT .TOFU))
  ∧ ∃ agg, analyzeWithMultiplePrompts brandX .ChatGPT .TOFU
      [(promptX, envOkWith score85Text)] = .ok agg := by
  constructor
  · exact (analyzeWithMultiplePrompts_allPromptsFailed_iff brandX .ChatGPT .TOFU
      [(promptX, envFail)] (by simp)).1.mpr (by decide)
  · refine (analyzeWithMultiplePrompts_allPromptsFailed_iff brandX .ChatGPT .TOFU
      [(promptX, envOkWith score85Text)] (by simp)).2 (by decide) ?_
    intro run hr hs
    rw [List.mem_singleton] at hr
    subst hr
    rfl

/-- C3: for every completed run, `overallScore` is the arithmetic mean of
the scores of the successful prompts only, and `successRate` is the number of
successful prompts over all prompts times 100. -/
theorem analyzeWithMultiplePrompts_overallScore_successRate
    (brandData : IBrand) (model : AIModel) (stage : AnalysisStage)
    (runs : List (ProcessedPrompt × PromptEnv)) (agg : AIAnalysisResults)
    (hok : analyzeWithMultiplePrompts brandData model stage runs = .ok agg) :
    agg.overallScore =
      (successScores brandData model stage runs).sum /
        (successCount brandData model stage runs : ℚ)
  ∧ agg.successRate =
      (successCount brandData model stage runs : ℚ) / (runs.length : ℚ) * 100 := by
  obtain ⟨hne, acc, hacc, hzero, rfl⟩ :=
    (analyzeWMP_ok_iff brandData model stage runs agg).mp hok
  have hsp := foldl_aggStep_ok_successfulPrompts brandData model stage runs
    initAcc acc hacc
  have hpr := foldl_aggStep_ok_promptResults brandData model stage runs
    initAcc acc hacc
  have hspc : acc.successfulPrompts = successCount brandData model stage runs := by
    rw [hsp]
    simp [initAcc]
  constructor
  · rw [buildResults_overallScore, hpr, hspc]
    simp only [initAcc, List.nil_append]
    rw [if_pos (Nat.pos_of_ne_zero (hspc ▸ hzero)), jsOrElseZero_some,
      List.filter_map, List.map_map]
    rfl
  · rw [buildResults_successRate, hspc]

/-- Witness for C3 at a concrete input: with 20 prompts of which exactly one
succeeds with score 85, the success rate is 5 and the overall score is 85. -/
theorem analyzeWithMultiplePrompts_overallScore_successRate_witness :
    ∃ agg, analyzeWithMultiplePrompts brandX .ChatGPT .TOFU runs20 = .ok agg ∧
      agg.successRate = 5 ∧ agg.overallScore = 85 := by
  obtain ⟨acc, hacc, hsp1⟩ :
      ∃ acc, runs20.foldl (aggStep brandX .ChatGPT .TOFU) (.ok initAcc) = .ok acc ∧
        acc.successfulPrompts = 1 := ⟨_, rfl, rfl⟩
  have hok : analyzeWithMultiplePrompts brandX .ChatGPT .TOFU runs20 =
      .ok (buildResults acc runs20.length) :=
    (analyzeWMP_ok_iff brandX .ChatGPT .TOFU runs20 _).mpr
      ⟨by simp [runs20], acc, hacc, by rw [hsp1]; exact one_ne_zero, rfl⟩
  obtain ⟨h1, h2⟩ := analyzeWithMultiplePrompts_overallScore_successRate
    brandX .ChatGPT .TOFU runs20 _ hok
  refine ⟨_, hok, ?_, ?_⟩
  · rw [h2]
    have hc : successCount brandX .ChatGPT .TOFU runs20 = 1 := by decide
    have hl : runs20.length = 20 := by decide
    rw [hc, hl]
    norm_num
  · rw [h1]
    have hc : successCount brandX .ChatGPT .TOFU runs20 = 1 := by decide
    have hs : successScores brandX .ChatGPT .TOFU runs20 =
        [JsonNum.toRat ⟨85, 0, 0⟩] := by rfl
    rw [hc, hs]
    simp [JsonNum.toRat]

/-- C10: every completed run's `promptResults` has exactly one entry per
configured prompt, in template order, with each entry's `promptId` equal to
the template's `prompt_id`, whether the prompt succeeded or failed. -/
theorem analyzeWithMultiplePrompts_promptResults_aligned
    (brandData : IBrand) (model : AIModel) (stage : AnalysisStage)
    (runs : List (ProcessedPrompt × PromptEnv)) (agg : AIAnalysisResults)
    (hok : analyzeWithMultiplePrompts brandData model stage runs = .ok agg) :
    agg.promptResults.map (fun r => r.promptId) =
      runs.map (fun run => run.1.prompt_id) := by
  obtain ⟨hne, acc, hacc, hzero, rfl⟩ :=
    (analyzeWMP_ok_iff brandData model stage runs agg).mp hok
  rw [buildResults_promptResults,
    foldl_aggStep_ok_promptResults brandData model stage runs initAcc acc hacc]
  simp only [initAcc, List.nil_append, List.map_map]
  rfl

/-- Witness for C10 at a concrete input: one succeeding and one failing
prompt give entries P1 then P2. -/
theorem analyzeWithMultiplePrompts_promptResults_aligned_witness :
    ∃ agg, analyzeWithMultiplePrompts brandX .ChatGPT .TOFU
        [(promptX, envOkWith score85Text), (promptY, envFail)] = .ok agg ∧
      agg.promptResults.map (fun r => r.promptId) = ["P1", "P2"] := by
  obtain ⟨acc, hacc, hsp1⟩ :
      ∃ acc, [(promptX, envOkWith score85Text), (promptY, envFail)].foldl
          (aggStep brandX .ChatGPT .TOFU) (.ok initAcc) = .ok acc ∧
        acc.successfulPrompts = 1 := ⟨_, rfl, rfl⟩
  have hok : analyzeWithMultiplePrompts brandX .ChatGPT .TOFU
      [(promptX, envOkWith score85Text), (promptY, envFail)] =
      .ok (buildResults acc 2) :=
    (analyzeWMP_ok_iff brandX .ChatGPT .TOFU _ _).mpr
      ⟨by simp, acc, hacc, by rw [hsp1]; exact one_ne_zero, rfl⟩
  refine ⟨_, hok, ?_⟩
  rw [analyzeWithMultiplePrompts_promptResults_aligned brandX .ChatGPT .TOFU _ _ hok]
  rfl

/-- C2: `analyzeBrand` always returns exactly one result (it is a total
function into `AIAnalysisResult`) and never throws past its boundary; its
status is `error` exactly when one of its steps failed, and on any failure
the result carries score 0, the elapsed time up to the failure, and the
diagnostic message embedded in the response and in place of the analysis
text. -/
theorem analyzeBrand_error_contract (model : AIModel) (prompt : String)
    (brandData : IBrand) (stage : AnalysisStage) (env : PromptEnv) :
    ((analyzeBrand model prompt brandData stage env).status = .error ↔
        analyzeBrandFailure env ≠ none)
  ∧ (∀ msg, analyzeBrandFailure env = some msg →
      analyzeBrand model prompt brandData stage env =
        analyzeBrandErrorResult msg env.elapsedOnFailure ∧
      (analyzeBrand model prompt brandData stage env).score = 0 ∧
      (analyzeBrand model prompt brandData stage env).responseTime =
        env.elapsedOnFailure ∧
      (analyzeBrand model prompt brandData stage env).response =
        "Analysis failed: " ++ msg ∧
      (analyzeBrand model prompt brandData stage env).analysis =
        .str ("Analysis failed due to error: " ++ msg)) := by
  cases hp : env.primaryCall with
  | thrown m =>
    constructor
    · simp [analyzeBrand, analyzeBrandFailure, hp, analyzeBrandErrorResult]
    · intro msg hmsg
      simp only [analyzeBrandFailure, hp, Option.some.injEq] at hmsg
      subst hmsg
      simp [analyzeBrand, hp, analyzeBrandErrorResult]
  | ok r =>
    cases hs : parseAIResponse env.scoringCall with
    | error m =>
      constructor
      · simp [analyzeBrand, analyzeBrandFailure, hp, hs, analyzeBrandErrorResult]
      · intro msg hmsg
        simp only [analyzeBrandFailure, hp, hs, Option.some.injEq] at hmsg
        subst hmsg
        simp [analyzeBrand, hp, hs, analyzeBrandErrorResult]
    | ok p =>
      constructor
      · simp [analyzeBrand, analyzeBrandFailure, hp, hs]
      · intro msg hmsg
        simp [analyzeBrandFailure, hp, hs] at hmsg

/-- Witness for C2 at a concrete input: a thrown primary call yields the
error result with score 0, the recorded elapsed time, and the diagnostic in
the response and analysis slots. -/
theorem analyzeBrand_error_contract_witness :
    analyzeBrand .ChatGPT "Q" brandX .TOFU envFail =
      analyzeBrandErrorResult "Network error" 1234 ∧
    (analyzeBrand .ChatGPT "Q" brandX .TOFU envFail).score = 0 ∧
    (analyzeBrand .ChatGPT "Q" brandX .TOFU envFail).responseTime = 1234 ∧
    (analyzeBrand .ChatGPT "Q" brandX .TOFU envFail).response =
      "Analysis failed: Network error" ∧
    (analyzeBrand .ChatGPT "Q" brandX .TOFU envFail).analysis =
      .str "Analysis failed due to error: Network error" := by
  have h := (analyzeBrand_error_contract .ChatGPT "Q" brandX .TOFU envFail).2
    "Network error" (by rfl)
  exact ⟨h.1, h.2.1, h.2.2.1, h.2.2.2.1, h.2.2.2.2⟩

/-- C6: on input with no JSON-like span on which both the strict and the
single-quote-repaired parses fail, extraction fails with an error carrying
the original strategy-5 parse error and a preview of the first 300 characters
of the input — bounded, and a strict prefix (never the full payload) whenever
the input is longer than 300 characters. -/
theorem extractAndParseJSON_prose_malformed (s : String) (e : String)
    (hne : s ≠ "")
    (hnospan : spanSearch (stripTrailingFence (stripLeadingFence (jsTrimList s.data))) = none)
    (h5 : jsonParse (extractCleaned s) = .error e)
    (h6 : ∃ e2, jsonParse (fixSingleQuotes (extractCleaned s)) = .error e2) :
    extractAndParseJSON s = .error (.malformed e (jsTake s 300)) ∧
    (jsTake s 300).data.length ≤ 300 ∧
    (300 < s.data.length → jsTake s 300 ≠ s) := by
  obtain ⟨e2, h6⟩ := h6
  refine ⟨?_, ?_, ?_⟩
  · simp [extractAndParseJSON, parseWithFallback, hne, h5, h6]
  · simp [jsTake]
  · intro hlen heq
    have hdata : s.data.take 300 = s.data := congrArg String.data heq
    have h2 := congrArg List.length hdata
    rw [List.length_take] at h2
    omega

/-- The prose input for the C6 witness. -/
theorem extractAndParseJSON_prose_malformed_witness :
    extractAndParseJSON "The brand is well known and widely used." =
      .error (.malformed "Unexpected token in JSON"
        (jsTake "The brand is well known and widely used." 300)) ∧
    (jsTake "The brand is well known and widely used." 300).data.length ≤ 300 ∧
    (300 < "The brand is well known and widely used.".data.length →
      jsTake "The brand is well known and widely used." 300 ≠
        "The brand is well known and widely used.") :=
  extractAndParseJSON_prose_malformed "The brand is well known and widely used."
    "Unexpected token in JSON" (by decide) (by rfl) (by rfl) ⟨_, by rfl⟩

/-- C7: for every extracted Decision-stage outcome other than `yes`, the
resulting score (the 0..1 rubric value, scaled by 100 as the aggregator
records it) is at most 66 under the spec-modelled weight table. -/
theorem computeStageSpecificScore_bofu_cap (value : String) (baseWeight : ℚ)
    (hv : value ≠ "yes") :
    100 * (computeStageSpecificScore .BOFU value specWeights baseWeight).rawScore ≤ 66 := by
  by_cases h1 : value = "partial"
  · subst h1
    simp [computeStageSpecificScore, specWeights, List.lookup]
    norm_num
  by_cases h2 : value = "unclear"
  · subst h2
    simp [computeStageSpecificScore, specWeights, List.lookup]
    norm_num
  by_cases h3 : value = "no"
  · subst h3
    simp [computeStageSpecificScore, specWeights, List.lookup]
    norm_num
  by_cases h4 : value = "absent"
  · subst h4
    simp [computeStageSpecificScore, specWeights, List.lookup]
  have k1 : (value == "yes") = false := by simp [hv]
  have k2 : (value == "partial") = false := by simp [h1]
  have k3 : (value == "unclear") = false := by simp [h2]
  have k4 : (value == "no") = false := by simp [h3]
  have k5 : (value == "absent") = false := by simp [h4]
  simp [computeStageSpecificScore, specWeights, List.lookup, k1, k2, k3, k4, k5]

/-- Witness for C7 at a concrete input: the `unclear` outcome scores 50,
within the cap. -/
theorem computeStageSpecificScore_bofu_cap_witness :
    100 * (computeStageSpecificScore .BOFU "unclear" specWeights 1).rawScore ≤ 66 :=
  computeStageSpecificScore_bofu_cap "unclear" 1 (by decide)

/-- C8: for every funnel stage, the `absent` outcome maps to the minimum
score 0 (raw and weighted) under the spec-modelled weight tables. -/
theorem computeStageSpecificScore_absent_zero (stage : AnalysisStage) (baseWeight : ℚ) :
    (computeStageSpecificScore stage "absent" specWeights baseWeight).rawScore = 0 ∧
    (computeStageSpecificScore stage "absent" specWeights baseWeight).weightedScore = 0 := by
  cases stage <;>
    exact ⟨by simp [computeStageSpecificScore, specWeights, List.lookup],
           by simp [computeStageSpecificScore, specWeights, List.lookup]⟩

/-- C4 counterexample: the claimed round-trip fails for a JSON object whose
string content holds a comma followed by a closing brace.  Strict parsing of
its serialization yields the object; extraction of the same serialization
wrapped in a Markdown fence with commentary yields a different object,
because the trailing-comma repair regex deletes the comma inside the string
literal. -/
theorem extractAndParseJSON_roundtrip_counterexample :
    jsonParseStr commaBraceText = .ok (.obj [("a", .str ",\x7d")]) ∧
    extractAndParseJSON ("Result:\n```json\n" ++ commaBraceText ++ "\n```\nDone.") =
      .ok (.obj [("a", .str "\x7d")]) ∧
    Json.obj [("a", .str "\x7d")] ≠ Json.obj [("a", .str ",\x7d")] := by
  refine ⟨rfl, rfl, ?_⟩
  intro h
  injection h with h'
  injection h' with h1 h2
  injection h1 with h3 h4
  injection h4 with h5
  exact absurd h5 (by decide)

/-- C4 amended: for the spec's score-85 example judgment, extraction of its
serialization wrapped in a Markdown fence with commentary before and after,
of the serialization with a trailing comma inserted before a closing brace,
and of the serialization with single quotes in place of double quotes, all
return exactly the object strict parsing of the well-formed serialization
returns. -/
theorem extractAndParseJSON_roundtrip_score85 :
    jsonParseStr score85Text = .ok score85Json ∧
    extractAndParseJSON ("Here is the analysis:\n```json\n" ++ score85Text ++
      "\n```\nLet me know if this helps.") = .ok score85Json ∧
    extractAndParseJSON score85TrailingComma = .ok score85Json ∧
    extractAndParseJSON score85SingleQuoted = .ok score85Json :=
  ⟨rfl, rfl, rfl, rfl⟩

/-- C5 counterexample: extraction accepts the bare primitive input "85"
through the single-quote fallback (which skips the object check), and
validation of the resulting primitive fails with the `in`-operator
`TypeError` — an error that names no absent or invalid field, unlike the
missing-fields error. -/
theorem validateParsedResponse_primitive_counterexample :
    extractAndParseJSON "85" = .ok (.num ⟨85, 0, 0⟩) ∧
    validateParsedResponse (.num ⟨85, 0, 0⟩) =
      .error (.typeErrorIn "score" (.num ⟨85, 0, 0⟩)) ∧
    (∀ missing available,
      ValidationError.typeErrorIn "score" (.num ⟨85, 0, 0⟩) ≠
        .missingFields missing available) :=
  ⟨rfl, rfl, fun _ _ h => ValidationError.noConfusion h⟩

/-- Successful validation pins down the shape the fields check enforces. -/
theorem validateFields_ok_shape (parsed : Json)
    (hv : validateFields parsed = .ok ()) :
    (∀ f ∈ requiredFields, parsed.hasField f = true) ∧
    (∃ n, parsed.field "score" = some (.num n)) ∧
    (∃ sj, parsed.field "sentiment" = some sj ∧
      (sj.truthy && sj.typeofObject) = true) := by
  unfold validateFields at hv
  split at hv
  · exact Except.noConfusion hv
  · rename_i hmiss
    split at hv
    · rename_i n hsc
      split at hv
      · rename_i sj hsj
        split at hv
        · rename_i htruthy
          refine ⟨?_, ⟨n, hsc⟩, ⟨sj, hsj, htruthy⟩⟩
          intro f hf
          have hempty : requiredFields.filter (fun f => !(parsed.hasField f)) = [] := by
            cases hl : requiredFields.filter (fun f => !(parsed.hasField f)) with
            | nil => rfl
            | cons a t =>
              rw [hl] at hmiss
              simp at hmiss
          have := List.filter_eq_nil_iff.mp hempty f hf
          simpa using this
        · exact Except.noConfusion hv
      · exact Except.noConfusion hv
    · exact Except.noConfusion hv

/-- A failing fields check raises one of the three errors that name the
absent or invalid fields. -/
theorem validateFields_error_shape (parsed : Json) (e : ValidationError)
    (hv : validateFields parsed = .error e) :
    e = .missingFields
          (requiredFields.filter (fun f => !(parsed.hasField f)))
          (availableKeys parsed) ∨
    e = .invalidScore (parsed.field "score") ∨
    e = .invalidSentiment := by
  unfold validateFields at hv
  split at hv
  · left
    injection hv with h'
    exact h'.symm
  · split at hv
    · rename_i n hsc
      split at hv
      · rename_i sj hsj
        split at hv
        · exact Except.noConfusion hv
        · right; right
          injection hv with h'
          exact h'.symm
      · right; right
        injection hv with h'
        exact h'.symm
    · right; left
      injection hv with h'
      exact h'.symm

/-- C5 amended: whenever extraction and validation both succeed, the judgment
is an object (not a primitive or an array) with all of score, confidence,
rationale and sentiment present, a numeric (never-NaN) score and a truthy
object-typed sentiment; when validation fails on an object or array it
raises exactly one of the three errors naming the absent or invalid fields;
but when extraction hands it a bare primitive (reachable through the
single-quote fallback), it fails with a `TypeError` naming no fields. -/
theorem extractAndParseJSON_validate_contract (s : String) (j : Json)
    (hok : extractAndParseJSON s = .ok j) :
    (validateParsedResponse j = .ok () →
      (∃ fields, j = .obj fields) ∧
      (∀ f ∈ requiredFields, j.hasField f = true) ∧
      (∃ n, j.field "score" = some (.num n)) ∧
      (∃ sj, j.field "sentiment" = some sj ∧
        (sj.truthy && sj.typeofObject) = true))
  ∧ (∀ e, validateParsedResponse j = .error e → j.isObjLike = true →
      e = .missingFields
            (requiredFields.filter (fun f => !(j.hasField f))) (availableKeys j) ∨
      e = .invalidScore (j.field "score") ∨
      e = .invalidSentiment)
  ∧ (j.isObjLike = false →
      validateParsedResponse j = .error (.typeErrorIn "score" j)) := by
  clear hok
  cases j with
  | obj fields =>
    refine ⟨?_, ?_, fun h => absurd h (by simp [Json.isObjLike])⟩
    · intro hv
      have h := validateFields_ok_shape _ hv
      exact ⟨⟨fields, rfl⟩, h.1, h.2.1, h.2.2⟩
    · intro e hv _
      exact validateFields_error_shape _ _ hv
  | arr elems =>
    refine ⟨?_, ?_, fun h => absurd h (by simp [Json.isObjLike])⟩
    · intro hv
      have h := (validateFields_ok_shape _ hv).1 "score" (by simp [requiredFields])
      simp [Json.hasField] at h
    · intro e hv _
      exact validateFields_error_shape _ _ hv
  | null =>
    exact ⟨fun hv => Except.noConfusion hv,
           fun e hv h => absurd h (by simp [Json.isObjLike]),
           fun _ => rfl⟩
  | bool b =>
    exact ⟨fun hv => Except.noConfusion hv,
           fun e hv h => absurd h (by simp [Json.isObjLike]),
           fun _ => rfl⟩
  | num n =>
    exact ⟨fun hv => Except.noConfusion hv,
           fun e hv h => absurd h (by simp [Json.isObjLike]),
           fun _ => rfl⟩
  | str t =>
    exact ⟨fun hv => Except.noConfusion hv,
           fun e hv h => absurd h (by simp [Json.isObjLike]),
           fun _ => rfl⟩

/-- Witness for C5 at a concrete input: the spec's example judgment passes
extraction and validation, and the contract yields its object shape and
numeric score. -/
theorem extractAndParseJSON_validate_contract_witness :
    (∃ fields, score85Json = .obj fields) ∧
    (∃ n, score85Json.field "score" = some (.num n)) := by
  have h := (extractAndParseJSON_validate_contract score85Text score85Json
    (by rfl)).1 (by rfl)
  exact ⟨h.1, h.2.2.1⟩

end BVT
